import Mathlib

/-!
Shallow embedding of the OMP command processor of src/src/omp.c: the client
state machine driven by XML start/end element events, the response builders,
the to_client output buffer with its drain loop, and the end-element
dispatch for the task commands the claims concern.  Definitions follow the
source; the few parts of the program that live outside src/ (the host's
write callback, the management backend's request_delete_task) are modelled
from the spec and say so in their doc comments.
-/

set_option maxRecDepth 8000

namespace Gvmd

/-! ## Status codes and response builders (src/omp.c lines 448-553, 3014-3059, 3090-3190) -/

/-- Status code for a syntax error (src/omp.c line 453). -/
def STATUS_ERROR_SYNTAX : String := "400"

/-- Status code for a missing resource (line 478). -/
def STATUS_ERROR_MISSING : String := "404"

/-- Status text for a missing resource (line 483). -/
def STATUS_ERROR_MISSING_TEXT : String := "Resource missing"

/-- Status code for a busy resource (line 488); defined in the source but
never used by any response the file builds. -/
def STATUS_ERROR_BUSY : String := "409"

/-- Status text for a busy resource (line 493); unused like its code. -/
def STATUS_ERROR_BUSY_TEXT : String := "Resource busy"

/-- Status code for failed authentication (line 498). -/
def STATUS_ERROR_AUTH_FAILED : String := "400"

/-- Status text for failed authentication (line 503). -/
def STATUS_ERROR_AUTH_FAILED_TEXT : String := "Authentication failed"

/-- Status code for success (line 508). -/
def STATUS_OK : String := "200"

/-- Status text for success (line 513). -/
def STATUS_OK_TEXT : String := "OK"

/-- Status code for a created resource (line 518). -/
def STATUS_OK_CREATED : String := "201"

/-- Status code for a submitted asynchronous request (line 528). -/
def STATUS_OK_REQUESTED : String := "202"

/-- Status text for a submitted asynchronous request (line 533). -/
def STATUS_OK_REQUESTED_TEXT : String := "OK, request submitted"

/-- Status code for an internal error (line 538). -/
def STATUS_INTERNAL_ERROR : String := "500"

/-- Status text for an internal error (line 543). -/
def STATUS_INTERNAL_ERROR_TEXT : String := "Internal error"

/-- The XML_ERROR_SYNTAX macro (lines 3095-3098): a syntax-error response. -/
def XML_ERROR_SYNTAX (tag text : String) : String :=
  "<" ++ tag ++ "_response status=\"" ++ STATUS_ERROR_SYNTAX
    ++ "\" status_text=\"" ++ text ++ "\"/>"

/-- The XML_ERROR_AUTH_FAILED macro (lines 3125-3128). -/
def XML_ERROR_AUTH_FAILED (tag : String) : String :=
  "<" ++ tag ++ "_response status=\"" ++ STATUS_ERROR_AUTH_FAILED
    ++ "\" status_text=\"" ++ STATUS_ERROR_AUTH_FAILED_TEXT ++ "\"/>"

/-- The XML_OK macro (lines 3135-3138). -/
def XML_OK (tag : String) : String :=
  "<" ++ tag ++ "_response status=\"" ++ STATUS_OK
    ++ "\" status_text=\"" ++ STATUS_OK_TEXT ++ "\"/>"

/-- The XML_OK_REQUESTED macro (lines 3165-3169). -/
def XML_OK_REQUESTED (tag : String) : String :=
  "<" ++ tag ++ "_response status=\"" ++ STATUS_OK_REQUESTED
    ++ "\" status_text=\"" ++ STATUS_OK_REQUESTED_TEXT ++ "\"/>"

/-- The XML_INTERNAL_ERROR macro (lines 3175-3179). -/
def XML_INTERNAL_ERROR (tag : String) : String :=
  "<" ++ tag ++ "_response status=\"" ++ STATUS_INTERNAL_ERROR
    ++ "\" status_text=\"" ++ STATUS_INTERNAL_ERROR_TEXT ++ "\"/>"

/-- The message built by send_element_error_to_client (lines 3014-3031):
a syntax-error response naming the unexpected element. -/
def send_element_error_msg (command element : String) : String :=
  "<" ++ command ++ "_response status=\"" ++ STATUS_ERROR_SYNTAX
    ++ "\" status_text=\"Bogus element: " ++ element ++ "\"/>"

/-- The message built by send_find_error_to_client (lines 3044-3059):
a missing-resource response naming the type and the id verbatim. -/
def send_find_error_msg (command typ id : String) : String :=
  "<" ++ command ++ "_response status=\"" ++ STATUS_ERROR_MISSING
    ++ "\" status_text=\"Failed to find " ++ typ ++ " '" ++ id ++ "'\"/>"

/-- The parse error set by error_send_to_client (lines 3066-3072) when
send_to_client reports failure. -/
def outOfSpaceMsg : String := "Manager out of space for reply to client."

/-! ## The client state enumeration (src/omp.c lines 2700-2920), in source
order, so that `ClientState.toCtorIdx` is the C enum's integer value. -/

inductive ClientState
  | CLIENT_TOP
  | CLIENT_AUTHENTIC
  | CLIENT_AUTHENTICATE
  | CLIENT_AUTHENTICATE_CREDENTIALS
  | CLIENT_AUTHENTICATE_CREDENTIALS_PASSWORD
  | CLIENT_AUTHENTICATE_CREDENTIALS_USERNAME
  | CLIENT_AUTHENTIC_COMMANDS
  | CLIENT_COMMANDS
  | CLIENT_CREATE_AGENT
  | CLIENT_CREATE_AGENT_NAME
  | CLIENT_CREATE_AGENT_COMMENT
  | CLIENT_CREATE_AGENT_INSTALLER
  | CLIENT_CREATE_AGENT_INSTALLER_FILENAME
  | CLIENT_CREATE_AGENT_INSTALLER_SIGNATURE
  | CLIENT_CREATE_AGENT_HOWTO_INSTALL
  | CLIENT_CREATE_AGENT_HOWTO_USE
  | CLIENT_CREATE_CONFIG
  | CLIENT_CREATE_CONFIG_COMMENT
  | CLIENT_CREATE_CONFIG_COPY
  | CLIENT_CREATE_CONFIG_NAME
  | CLIENT_CREATE_CONFIG_RCFILE
  | CLIENT_C_C_GCR
  | CLIENT_C_C_GCR_CONFIG
  | CLIENT_C_C_GCR_CONFIG_COMMENT
  | CLIENT_C_C_GCR_CONFIG_NAME
  | CLIENT_C_C_GCR_CONFIG_NVT_SELECTORS
  | CLIENT_C_C_GCR_CONFIG_NVT_SELECTORS_NVT_SELECTOR
  | CLIENT_C_C_GCR_CONFIG_NVT_SELECTORS_NVT_SELECTOR_NAME
  | CLIENT_C_C_GCR_CONFIG_NVT_SELECTORS_NVT_SELECTOR_INCLUDE
  | CLIENT_C_C_GCR_CONFIG_NVT_SELECTORS_NVT_SELECTOR_TYPE
  | CLIENT_C_C_GCR_CONFIG_NVT_SELECTORS_NVT_SELECTOR_FAMILY_OR_NVT
  | CLIENT_C_C_GCR_CONFIG_PREFERENCES
  | CLIENT_C_C_GCR_CONFIG_PREFERENCES_PREFERENCE
  | CLIENT_C_C_GCR_CONFIG_PREFERENCES_PREFERENCE_ALT
  | CLIENT_C_C_GCR_CONFIG_PREFERENCES_PREFERENCE_NAME
  | CLIENT_C_C_GCR_CONFIG_PREFERENCES_PREFERENCE_NVT
  | CLIENT_C_C_GCR_CONFIG_PREFERENCES_PREFERENCE_NVT_NAME
  | CLIENT_C_C_GCR_CONFIG_PREFERENCES_PREFERENCE_TYPE
  | CLIENT_C_C_GCR_CONFIG_PREFERENCES_PREFERENCE_VALUE
  | CLIENT_CREATE_ESCALATOR
  | CLIENT_CREATE_ESCALATOR_COMMENT
  | CLIENT_CREATE_ESCALATOR_CONDITION
  | CLIENT_CREATE_ESCALATOR_CONDITION_DATA
  | CLIENT_CREATE_ESCALATOR_CONDITION_DATA_NAME
  | CLIENT_CREATE_ESCALATOR_EVENT
  | CLIENT_CREATE_ESCALATOR_EVENT_DATA
  | CLIENT_CREATE_ESCALATOR_EVENT_DATA_NAME
  | CLIENT_CREATE_ESCALATOR_METHOD
  | CLIENT_CREATE_ESCALATOR_METHOD_DATA
  | CLIENT_CREATE_ESCALATOR_METHOD_DATA_NAME
  | CLIENT_CREATE_ESCALATOR_NAME
  | CLIENT_CREATE_LSC_CREDENTIAL
  | CLIENT_CREATE_LSC_CREDENTIAL_COMMENT
  | CLIENT_CREATE_LSC_CREDENTIAL_NAME
  | CLIENT_CREATE_LSC_CREDENTIAL_PASSWORD
  | CLIENT_CREATE_LSC_CREDENTIAL_LOGIN
  | CLIENT_CREATE_NOTE
  | CLIENT_CREATE_NOTE_HOSTS
  | CLIENT_CREATE_NOTE_NVT
  | CLIENT_CREATE_NOTE_PORT
  | CLIENT_CREATE_NOTE_RESULT
  | CLIENT_CREATE_NOTE_TASK
  | CLIENT_CREATE_NOTE_TEXT
  | CLIENT_CREATE_NOTE_THREAT
  | CLIENT_CREATE_OVERRIDE
  | CLIENT_CREATE_OVERRIDE_HOSTS
  | CLIENT_CREATE_OVERRIDE_NEW_THREAT
  | CLIENT_CREATE_OVERRIDE_NVT
  | CLIENT_CREATE_OVERRIDE_PORT
  | CLIENT_CREATE_OVERRIDE_RESULT
  | CLIENT_CREATE_OVERRIDE_TASK
  | CLIENT_CREATE_OVERRIDE_TEXT
  | CLIENT_CREATE_OVERRIDE_THREAT
  | CLIENT_CREATE_REPORT_FORMAT
  | CLIENT_CRF_GRFR
  | CLIENT_CRF_GRFR_REPORT_FORMAT
  | CLIENT_CRF_GRFR_REPORT_FORMAT_CONTENT_TYPE
  | CLIENT_CRF_GRFR_REPORT_FORMAT_DESCRIPTION
  | CLIENT_CRF_GRFR_REPORT_FORMAT_EXTENSION
  | CLIENT_CRF_GRFR_REPORT_FORMAT_FILE
  | CLIENT_CRF_GRFR_REPORT_FORMAT_GLOBAL
  | CLIENT_CRF_GRFR_REPORT_FORMAT_NAME
  | CLIENT_CRF_GRFR_REPORT_FORMAT_PARAM
  | CLIENT_CRF_GRFR_REPORT_FORMAT_PARAM_NAME
  | CLIENT_CRF_GRFR_REPORT_FORMAT_PARAM_VALUE
  | CLIENT_CRF_GRFR_REPORT_FORMAT_SIGNATURE
  | CLIENT_CRF_GRFR_REPORT_FORMAT_SUMMARY
  | CLIENT_CRF_GRFR_REPORT_FORMAT_TRUST
  | CLIENT_CREATE_SCHEDULE
  | CLIENT_CREATE_SCHEDULE_NAME
  | CLIENT_CREATE_SCHEDULE_COMMENT
  | CLIENT_CREATE_SCHEDULE_FIRST_TIME
  | CLIENT_CREATE_SCHEDULE_FIRST_TIME_DAY_OF_MONTH
  | CLIENT_CREATE_SCHEDULE_FIRST_TIME_HOUR
  | CLIENT_CREATE_SCHEDULE_FIRST_TIME_MINUTE
  | CLIENT_CREATE_SCHEDULE_FIRST_TIME_MONTH
  | CLIENT_CREATE_SCHEDULE_FIRST_TIME_YEAR
  | CLIENT_CREATE_SCHEDULE_DURATION
  | CLIENT_CREATE_SCHEDULE_DURATION_UNIT
  | CLIENT_CREATE_SCHEDULE_PERIOD
  | CLIENT_CREATE_SCHEDULE_PERIOD_UNIT
  | CLIENT_CREATE_SLAVE
  | CLIENT_CREATE_SLAVE_COMMENT
  | CLIENT_CREATE_SLAVE_HOST
  | CLIENT_CREATE_SLAVE_LOGIN
  | CLIENT_CREATE_SLAVE_NAME
  | CLIENT_CREATE_SLAVE_PASSWORD
  | CLIENT_CREATE_SLAVE_PORT
  | CLIENT_CREATE_TARGET
  | CLIENT_CREATE_TARGET_COMMENT
  | CLIENT_CREATE_TARGET_HOSTS
  | CLIENT_CREATE_TARGET_LSC_CREDENTIAL
  | CLIENT_CREATE_TARGET_NAME
  | CLIENT_CREATE_TARGET_TARGET_LOCATOR
  | CLIENT_CREATE_TARGET_TARGET_LOCATOR_PASSWORD
  | CLIENT_CREATE_TARGET_TARGET_LOCATOR_USERNAME
  | CLIENT_CREATE_TASK
  | CLIENT_CREATE_TASK_COMMENT
  | CLIENT_CREATE_TASK_CONFIG
  | CLIENT_CREATE_TASK_ESCALATOR
  | CLIENT_CREATE_TASK_NAME
  | CLIENT_CREATE_TASK_RCFILE
  | CLIENT_CREATE_TASK_SCHEDULE
  | CLIENT_CREATE_TASK_SLAVE
  | CLIENT_CREATE_TASK_TARGET
  | CLIENT_DELETE_AGENT
  | CLIENT_DELETE_CONFIG
  | CLIENT_DELETE_ESCALATOR
  | CLIENT_DELETE_LSC_CREDENTIAL
  | CLIENT_DELETE_NOTE
  | CLIENT_DELETE_OVERRIDE
  | CLIENT_DELETE_REPORT
  | CLIENT_DELETE_REPORT_FORMAT
  | CLIENT_DELETE_SCHEDULE
  | CLIENT_DELETE_SLAVE
  | CLIENT_DELETE_TASK
  | CLIENT_DELETE_TARGET
  | CLIENT_GET_AGENTS
  | CLIENT_GET_CERTIFICATES
  | CLIENT_GET_CONFIGS
  | CLIENT_GET_DEPENDENCIES
  | CLIENT_GET_ESCALATORS
  | CLIENT_GET_LSC_CREDENTIALS
  | CLIENT_GET_NOTES
  | CLIENT_GET_NVTS
  | CLIENT_GET_NVT_FAMILIES
  | CLIENT_GET_NVT_FEED_CHECKSUM
  | CLIENT_GET_OVERRIDES
  | CLIENT_GET_PREFERENCES
  | CLIENT_GET_REPORTS
  | CLIENT_GET_REPORT_FORMATS
  | CLIENT_GET_RESULTS
  | CLIENT_GET_SCHEDULES
  | CLIENT_GET_SLAVES
  | CLIENT_GET_SYSTEM_REPORTS
  | CLIENT_GET_TARGET_LOCATORS
  | CLIENT_GET_TARGETS
  | CLIENT_GET_TASKS
  | CLIENT_GET_VERSION
  | CLIENT_GET_VERSION_AUTHENTIC
  | CLIENT_HELP
  | CLIENT_MODIFY_REPORT
  | CLIENT_MODIFY_REPORT_COMMENT
  | CLIENT_MODIFY_REPORT_FORMAT
  | CLIENT_MODIFY_REPORT_FORMAT_NAME
  | CLIENT_MODIFY_REPORT_FORMAT_SUMMARY
  | CLIENT_MODIFY_CONFIG
  | CLIENT_MODIFY_CONFIG_PREFERENCE
  | CLIENT_MODIFY_CONFIG_PREFERENCE_NAME
  | CLIENT_MODIFY_CONFIG_PREFERENCE_NVT
  | CLIENT_MODIFY_CONFIG_PREFERENCE_VALUE
  | CLIENT_MODIFY_CONFIG_FAMILY_SELECTION
  | CLIENT_MODIFY_CONFIG_FAMILY_SELECTION_FAMILY
  | CLIENT_MODIFY_CONFIG_FAMILY_SELECTION_FAMILY_ALL
  | CLIENT_MODIFY_CONFIG_FAMILY_SELECTION_FAMILY_GROWING
  | CLIENT_MODIFY_CONFIG_FAMILY_SELECTION_FAMILY_NAME
  | CLIENT_MODIFY_CONFIG_FAMILY_SELECTION_GROWING
  | CLIENT_MODIFY_CONFIG_NVT_SELECTION
  | CLIENT_MODIFY_CONFIG_NVT_SELECTION_FAMILY
  | CLIENT_MODIFY_CONFIG_NVT_SELECTION_NVT
  | CLIENT_MODIFY_NOTE
  | CLIENT_MODIFY_NOTE_HOSTS
  | CLIENT_MODIFY_NOTE_PORT
  | CLIENT_MODIFY_NOTE_RESULT
  | CLIENT_MODIFY_NOTE_TASK
  | CLIENT_MODIFY_NOTE_TEXT
  | CLIENT_MODIFY_NOTE_THREAT
  | CLIENT_MODIFY_OVERRIDE
  | CLIENT_MODIFY_OVERRIDE_HOSTS
  | CLIENT_MODIFY_OVERRIDE_NEW_THREAT
  | CLIENT_MODIFY_OVERRIDE_PORT
  | CLIENT_MODIFY_OVERRIDE_RESULT
  | CLIENT_MODIFY_OVERRIDE_TASK
  | CLIENT_MODIFY_OVERRIDE_TEXT
  | CLIENT_MODIFY_OVERRIDE_THREAT
  | CLIENT_MODIFY_TASK
  | CLIENT_MODIFY_TASK_COMMENT
  | CLIENT_MODIFY_TASK_ESCALATOR
  | CLIENT_MODIFY_TASK_FILE
  | CLIENT_MODIFY_TASK_NAME
  | CLIENT_MODIFY_TASK_RCFILE
  | CLIENT_MODIFY_TASK_SCHEDULE
  | CLIENT_PAUSE_TASK
  | CLIENT_RESUME_OR_START_TASK
  | CLIENT_RESUME_PAUSED_TASK
  | CLIENT_RESUME_STOPPED_TASK
  | CLIENT_START_TASK
  | CLIENT_STOP_TASK
  | CLIENT_TEST_ESCALATOR
  | CLIENT_VERIFY_AGENT
  | CLIENT_VERIFY_REPORT_FORMAT
deriving DecidableEq, Repr, Fintype

open ClientState

/-- One non-top element state with an explicit transition table in the
start-element switch: the accepted (uppercase element name, child state)
pairs, the command name used in the bogus-element error, and the state
set on a bogus element. -/
structure StartEntry where
  accepts : List (String × ClientState)
  cmd : String
  fallback : ClientState

/-- Commands accepted in CLIENT_AUTHENTIC and CLIENT_AUTHENTIC_COMMANDS after
the AUTHENTICATE and COMMANDS branches, with their child states, in source
order (src/omp.c lines 3453-4193). -/
def authenticCommands : List (String × ClientState) := [
  ("CREATE_AGENT", CLIENT_CREATE_AGENT),
  ("CREATE_CONFIG", CLIENT_CREATE_CONFIG),
  ("CREATE_ESCALATOR", CLIENT_CREATE_ESCALATOR),
  ("CREATE_LSC_CREDENTIAL", CLIENT_CREATE_LSC_CREDENTIAL),
  ("CREATE_NOTE", CLIENT_CREATE_NOTE),
  ("CREATE_OVERRIDE", CLIENT_CREATE_OVERRIDE),
  ("CREATE_REPORT_FORMAT", CLIENT_CREATE_REPORT_FORMAT),
  ("CREATE_SLAVE", CLIENT_CREATE_SLAVE),
  ("CREATE_SCHEDULE", CLIENT_CREATE_SCHEDULE),
  ("CREATE_TARGET", CLIENT_CREATE_TARGET),
  ("CREATE_TASK", CLIENT_CREATE_TASK),
  ("DELETE_AGENT", CLIENT_DELETE_AGENT),
  ("DELETE_CONFIG", CLIENT_DELETE_CONFIG),
  ("DELETE_ESCALATOR", CLIENT_DELETE_ESCALATOR),
  ("DELETE_LSC_CREDENTIAL", CLIENT_DELETE_LSC_CREDENTIAL),
  ("DELETE_NOTE", CLIENT_DELETE_NOTE),
  ("DELETE_OVERRIDE", CLIENT_DELETE_OVERRIDE),
  ("DELETE_REPORT", CLIENT_DELETE_REPORT),
  ("DELETE_REPORT_FORMAT", CLIENT_DELETE_REPORT_FORMAT),
  ("DELETE_SCHEDULE", CLIENT_DELETE_SCHEDULE),
  ("DELETE_SLAVE", CLIENT_DELETE_SLAVE),
  ("DELETE_TARGET", CLIENT_DELETE_TARGET),
  ("DELETE_TASK", CLIENT_DELETE_TASK),
  ("GET_AGENTS", CLIENT_GET_AGENTS),
  ("GET_CERTIFICATES", CLIENT_GET_CERTIFICATES),
  ("GET_CONFIGS", CLIENT_GET_CONFIGS),
  ("GET_DEPENDENCIES", CLIENT_GET_DEPENDENCIES),
  ("GET_ESCALATORS", CLIENT_GET_ESCALATORS),
  ("GET_LSC_CREDENTIALS", CLIENT_GET_LSC_CREDENTIALS),
  ("GET_NOTES", CLIENT_GET_NOTES),
  ("GET_NVT_FEED_CHECKSUM", CLIENT_GET_NVT_FEED_CHECKSUM),
  ("GET_NVTS", CLIENT_GET_NVTS),
  ("GET_NVT_FAMILIES", CLIENT_GET_NVT_FAMILIES),
  ("GET_OVERRIDES", CLIENT_GET_OVERRIDES),
  ("GET_PREFERENCES", CLIENT_GET_PREFERENCES),
  ("GET_REPORTS", CLIENT_GET_REPORTS),
  ("GET_REPORT_FORMATS", CLIENT_GET_REPORT_FORMATS),
  ("GET_RESULTS", CLIENT_GET_RESULTS),
  ("GET_SCHEDULES", CLIENT_GET_SCHEDULES),
  ("GET_SLAVES", CLIENT_GET_SLAVES),
  ("GET_TARGET_LOCATORS", CLIENT_GET_TARGET_LOCATORS),
  ("GET_SYSTEM_REPORTS", CLIENT_GET_SYSTEM_REPORTS),
  ("GET_TARGETS", CLIENT_GET_TARGETS),
  ("GET_TASKS", CLIENT_GET_TASKS),
  ("GET_VERSION", CLIENT_GET_VERSION_AUTHENTIC),
  ("HELP", CLIENT_HELP),
  ("MODIFY_CONFIG", CLIENT_MODIFY_CONFIG),
  ("MODIFY_NOTE", CLIENT_MODIFY_NOTE),
  ("MODIFY_OVERRIDE", CLIENT_MODIFY_OVERRIDE),
  ("MODIFY_REPORT", CLIENT_MODIFY_REPORT),
  ("MODIFY_REPORT_FORMAT", CLIENT_MODIFY_REPORT_FORMAT),
  ("MODIFY_TASK", CLIENT_MODIFY_TASK),
  ("PAUSE_TASK", CLIENT_PAUSE_TASK),
  ("RESUME_OR_START_TASK", CLIENT_RESUME_OR_START_TASK),
  ("RESUME_PAUSED_TASK", CLIENT_RESUME_PAUSED_TASK),
  ("RESUME_STOPPED_TASK", CLIENT_RESUME_STOPPED_TASK),
  ("START_TASK", CLIENT_START_TASK),
  ("STOP_TASK", CLIENT_STOP_TASK),
  ("TEST_ESCALATOR", CLIENT_TEST_ESCALATOR),
  ("VERIFY_AGENT", CLIENT_VERIFY_AGENT),
  ("VERIFY_REPORT_FORMAT", CLIENT_VERIFY_REPORT_FORMAT)
  ]

/-- Transition table of omp_xml_handle_start_element for every state with
its own case in the switch, transcribed from src/omp.c lines 3394-6431.
The four top-level states (CLIENT_TOP, CLIENT_COMMANDS, CLIENT_AUTHENTIC,
CLIENT_AUTHENTIC_COMMANDS) are handled separately; a state without a case
falls to the default branch of the switch and gets none here. -/
def startTable : ClientState → Option StartEntry
  | CLIENT_AUTHENTICATE =>
    some ⟨[("CREDENTIALS", CLIENT_AUTHENTICATE_CREDENTIALS)], "authenticate", CLIENT_TOP⟩
  | CLIENT_AUTHENTICATE_CREDENTIALS =>
    some ⟨[("USERNAME", CLIENT_AUTHENTICATE_CREDENTIALS_USERNAME), ("PASSWORD", CLIENT_AUTHENTICATE_CREDENTIALS_PASSWORD)], "authenticate", CLIENT_TOP⟩
  | CLIENT_CREATE_AGENT =>
    some ⟨[("COMMENT", CLIENT_CREATE_AGENT_COMMENT), ("HOWTO_INSTALL", CLIENT_CREATE_AGENT_HOWTO_INSTALL), ("HOWTO_USE", CLIENT_CREATE_AGENT_HOWTO_USE), ("INSTALLER", CLIENT_CREATE_AGENT_INSTALLER), ("NAME", CLIENT_CREATE_AGENT_NAME)], "create_agent", CLIENT_AUTHENTIC⟩
  | CLIENT_CREATE_AGENT_INSTALLER =>
    some ⟨[("FILENAME", CLIENT_CREATE_AGENT_INSTALLER_FILENAME), ("SIGNATURE", CLIENT_CREATE_AGENT_INSTALLER_SIGNATURE)], "create_agent", CLIENT_AUTHENTIC⟩
  | CLIENT_CREATE_CONFIG =>
    some ⟨[("COMMENT", CLIENT_CREATE_CONFIG_COMMENT), ("COPY", CLIENT_CREATE_CONFIG_COPY), ("GET_CONFIGS_RESPONSE", CLIENT_C_C_GCR), ("NAME", CLIENT_CREATE_CONFIG_NAME), ("RCFILE", CLIENT_CREATE_CONFIG_RCFILE)], "create_config", CLIENT_AUTHENTIC⟩
  | CLIENT_C_C_GCR =>
    some ⟨[("CONFIG", CLIENT_C_C_GCR_CONFIG)], "create_config", CLIENT_AUTHENTIC⟩
  | CLIENT_C_C_GCR_CONFIG =>
    some ⟨[("COMMENT", CLIENT_C_C_GCR_CONFIG_COMMENT), ("NAME", CLIENT_C_C_GCR_CONFIG_NAME), ("NVT_SELECTORS", CLIENT_C_C_GCR_CONFIG_NVT_SELECTORS), ("PREFERENCES", CLIENT_C_C_GCR_CONFIG_PREFERENCES)], "create_config", CLIENT_AUTHENTIC⟩
  | CLIENT_C_C_GCR_CONFIG_COMMENT =>
    some ⟨[], "create_config", CLIENT_AUTHENTIC⟩
  | CLIENT_C_C_GCR_CONFIG_NAME =>
    some ⟨[], "create_config", CLIENT_AUTHENTIC⟩
  | CLIENT_C_C_GCR_CONFIG_NVT_SELECTORS =>
    some ⟨[("NVT_SELECTOR", CLIENT_C_C_GCR_CONFIG_NVT_SELECTORS_NVT_SELECTOR)], "create_config", CLIENT_AUTHENTIC⟩
  | CLIENT_C_C_GCR_CONFIG_NVT_SELECTORS_NVT_SELECTOR =>
    some ⟨[("INCLUDE", CLIENT_C_C_GCR_CONFIG_NVT_SELECTORS_NVT_SELECTOR_INCLUDE), ("NAME", CLIENT_C_C_GCR_CONFIG_NVT_SELECTORS_NVT_SELECTOR_NAME), ("TYPE", CLIENT_C_C_GCR_CONFIG_NVT_SELECTORS_NVT_SELECTOR_TYPE), ("FAMILY_OR_NVT", CLIENT_C_C_GCR_CONFIG_NVT_SELECTORS_NVT_SELECTOR_FAMILY_OR_NVT)], "create_config", CLIENT_AUTHENTIC⟩
  | CLIENT_C_C_GCR_CONFIG_NVT_SELECTORS_NVT_SELECTOR_NAME =>
    some ⟨[], "create_config", CLIENT_AUTHENTIC⟩
  | CLIENT_C_C_GCR_CONFIG_NVT_SELECTORS_NVT_SELECTOR_INCLUDE =>
    some ⟨[], "create_config", CLIENT_AUTHENTIC⟩
  | CLIENT_C_C_GCR_CONFIG_NVT_SELECTORS_NVT_SELECTOR_TYPE =>
    some ⟨[], "create_config", CLIENT_AUTHENTIC⟩
  | CLIENT_C_C_GCR_CONFIG_NVT_SELECTORS_NVT_SELECTOR_FAMILY_OR_NVT =>
    some ⟨[], "create_config", CLIENT_AUTHENTIC⟩
  | CLIENT_C_C_GCR_CONFIG_PREFERENCES =>
    some ⟨[("PREFERENCE", CLIENT_C_C_GCR_CONFIG_PREFERENCES_PREFERENCE)], "create_config", CLIENT_AUTHENTIC⟩
  | CLIENT_C_C_GCR_CONFIG_PREFERENCES_PREFERENCE =>
    some ⟨[("ALT", CLIENT_C_C_GCR_CONFIG_PREFERENCES_PREFERENCE_ALT), ("NAME", CLIENT_C_C_GCR_CONFIG_PREFERENCES_PREFERENCE_NAME), ("NVT", CLIENT_C_C_GCR_CONFIG_PREFERENCES_PREFERENCE_NVT), ("TYPE", CLIENT_C_C_GCR_CONFIG_PREFERENCES_PREFERENCE_TYPE), ("VALUE", CLIENT_C_C_GCR_CONFIG_PREFERENCES_PREFERENCE_VALUE)], "create_config", CLIENT_AUTHENTIC⟩
  | CLIENT_C_C_GCR_CONFIG_PREFERENCES_PREFERENCE_ALT =>
    some ⟨[], "create_config", CLIENT_AUTHENTIC⟩
  | CLIENT_C_C_GCR_CONFIG_PREFERENCES_PREFERENCE_NAME =>
    some ⟨[], "create_config", CLIENT_AUTHENTIC⟩
  | CLIENT_C_C_GCR_CONFIG_PREFERENCES_PREFERENCE_NVT =>
    some ⟨[("NAME", CLIENT_C_C_GCR_CONFIG_PREFERENCES_PREFERENCE_NVT_NAME)], "create_config", CLIENT_AUTHENTIC⟩
  | CLIENT_C_C_GCR_CONFIG_PREFERENCES_PREFERENCE_NVT_NAME =>
    some ⟨[], "create_config", CLIENT_AUTHENTIC⟩
  | CLIENT_C_C_GCR_CONFIG_PREFERENCES_PREFERENCE_TYPE =>
    some ⟨[], "create_config", CLIENT_AUTHENTIC⟩
  | CLIENT_C_C_GCR_CONFIG_PREFERENCES_PREFERENCE_VALUE =>
    some ⟨[], "create_config", CLIENT_AUTHENTIC⟩
  | CLIENT_CREATE_ESCALATOR =>
    some ⟨[("COMMENT", CLIENT_CREATE_ESCALATOR_COMMENT), ("CONDITION", CLIENT_CREATE_ESCALATOR_CONDITION), ("EVENT", CLIENT_CREATE_ESCALATOR_EVENT), ("METHOD", CLIENT_CREATE_ESCALATOR_METHOD), ("NAME", CLIENT_CREATE_ESCALATOR_NAME)], "create_escalator", CLIENT_AUTHENTIC⟩
  | CLIENT_CREATE_ESCALATOR_CONDITION =>
    some ⟨[("DATA", CLIENT_CREATE_ESCALATOR_CONDITION_DATA)], "create_escalator", CLIENT_AUTHENTIC⟩
  | CLIENT_CREATE_ESCALATOR_CONDITION_DATA =>
    some ⟨[("NAME", CLIENT_CREATE_ESCALATOR_CONDITION_DATA_NAME)], "create_escalator", CLIENT_AUTHENTIC⟩
  | CLIENT_CREATE_ESCALATOR_EVENT =>
    some ⟨[("DATA", CLIENT_CREATE_ESCALATOR_EVENT_DATA)], "create_escalator", CLIENT_AUTHENTIC⟩
  | CLIENT_CREATE_ESCALATOR_EVENT_DATA =>
    some ⟨[("NAME", CLIENT_CREATE_ESCALATOR_EVENT_DATA_NAME)], "create_escalator", CLIENT_AUTHENTIC⟩
  | CLIENT_CREATE_ESCALATOR_METHOD =>
    some ⟨[("DATA", CLIENT_CREATE_ESCALATOR_METHOD_DATA)], "create_escalator", CLIENT_AUTHENTIC⟩
  | CLIENT_CREATE_ESCALATOR_METHOD_DATA =>
    some ⟨[("NAME", CLIENT_CREATE_ESCALATOR_METHOD_DATA_NAME)], "create_escalator", CLIENT_AUTHENTIC⟩
  | CLIENT_CREATE_LSC_CREDENTIAL =>
    some ⟨[("COMMENT", CLIENT_CREATE_LSC_CREDENTIAL_COMMENT), ("LOGIN", CLIENT_CREATE_LSC_CREDENTIAL_LOGIN), ("NAME", CLIENT_CREATE_LSC_CREDENTIAL_NAME), ("PASSWORD", CLIENT_CREATE_LSC_CREDENTIAL_PASSWORD)], "create_lsc_credential", CLIENT_AUTHENTIC⟩
  | CLIENT_CREATE_NOTE =>
    some ⟨[("HOSTS", CLIENT_CREATE_NOTE_HOSTS), ("NVT", CLIENT_CREATE_NOTE_NVT), ("PORT", CLIENT_CREATE_NOTE_PORT), ("RESULT", CLIENT_CREATE_NOTE_RESULT), ("TASK", CLIENT_CREATE_NOTE_TASK), ("TEXT", CLIENT_CREATE_NOTE_TEXT), ("THREAT", CLIENT_CREATE_NOTE_THREAT)], "create_note", CLIENT_AUTHENTIC⟩
  | CLIENT_CREATE_OVERRIDE =>
    some ⟨[("HOSTS", CLIENT_CREATE_OVERRIDE_HOSTS), ("NEW_THREAT", CLIENT_CREATE_OVERRIDE_NEW_THREAT), ("NVT", CLIENT_CREATE_OVERRIDE_NVT), ("PORT", CLIENT_CREATE_OVERRIDE_PORT), ("RESULT", CLIENT_CREATE_OVERRIDE_RESULT), ("TASK", CLIENT_CREATE_OVERRIDE_TASK), ("TEXT", CLIENT_CREATE_OVERRIDE_TEXT), ("THREAT", CLIENT_CREATE_OVERRIDE_THREAT)], "create_override", CLIENT_AUTHENTIC⟩
  | CLIENT_CREATE_REPORT_FORMAT =>
    some ⟨[("GET_REPORT_FORMATS_RESPONSE", CLIENT_CRF_GRFR)], "create_report_format", CLIENT_AUTHENTIC⟩
  | CLIENT_CRF_GRFR =>
    some ⟨[("REPORT_FORMAT", CLIENT_CRF_GRFR_REPORT_FORMAT)], "create_report_format", CLIENT_AUTHENTIC⟩
  | CLIENT_CRF_GRFR_REPORT_FORMAT =>
    some ⟨[("CONTENT_TYPE", CLIENT_CRF_GRFR_REPORT_FORMAT_CONTENT_TYPE), ("DESCRIPTION", CLIENT_CRF_GRFR_REPORT_FORMAT_DESCRIPTION), ("EXTENSION", CLIENT_CRF_GRFR_REPORT_FORMAT_EXTENSION), ("GLOBAL", CLIENT_CRF_GRFR_REPORT_FORMAT_GLOBAL), ("FILE", CLIENT_CRF_GRFR_REPORT_FORMAT_FILE), ("NAME", CLIENT_CRF_GRFR_REPORT_FORMAT_NAME), ("PARAM", CLIENT_CRF_GRFR_REPORT_FORMAT_PARAM), ("SIGNATURE", CLIENT_CRF_GRFR_REPORT_FORMAT_SIGNATURE), ("SUMMARY", CLIENT_CRF_GRFR_REPORT_FORMAT_SUMMARY), ("TRUST", CLIENT_CRF_GRFR_REPORT_FORMAT_TRUST)], "create_report_format", CLIENT_AUTHENTIC⟩
  | CLIENT_CRF_GRFR_REPORT_FORMAT_CONTENT_TYPE =>
    some ⟨[], "create_report_format", CLIENT_AUTHENTIC⟩
  | CLIENT_CRF_GRFR_REPORT_FORMAT_DESCRIPTION =>
    some ⟨[], "create_report_format", CLIENT_AUTHENTIC⟩
  | CLIENT_CRF_GRFR_REPORT_FORMAT_EXTENSION =>
    some ⟨[], "create_report_format", CLIENT_AUTHENTIC⟩
  | CLIENT_CRF_GRFR_REPORT_FORMAT_FILE =>
    some ⟨[], "create_report_format", CLIENT_AUTHENTIC⟩
  | CLIENT_CRF_GRFR_REPORT_FORMAT_GLOBAL =>
    some ⟨[], "create_report_format", CLIENT_AUTHENTIC⟩
  | CLIENT_CRF_GRFR_REPORT_FORMAT_NAME =>
    some ⟨[], "create_report_format", CLIENT_AUTHENTIC⟩
  | CLIENT_CRF_GRFR_REPORT_FORMAT_PARAM =>
    some ⟨[("NAME", CLIENT_CRF_GRFR_REPORT_FORMAT_PARAM_NAME), ("VALUE", CLIENT_CRF_GRFR_REPORT_FORMAT_PARAM_VALUE)], "create_report_format", CLIENT_AUTHENTIC⟩
  | CLIENT_CRF_GRFR_REPORT_FORMAT_PARAM_NAME =>
    some ⟨[], "create_report_format", CLIENT_AUTHENTIC⟩
  | CLIENT_CRF_GRFR_REPORT_FORMAT_PARAM_VALUE =>
    some ⟨[], "create_report_format", CLIENT_AUTHENTIC⟩
  | CLIENT_CRF_GRFR_REPORT_FORMAT_SIGNATURE =>
    some ⟨[], "create_report_format", CLIENT_AUTHENTIC⟩
  | CLIENT_CRF_GRFR_REPORT_FORMAT_SUMMARY =>
    some ⟨[], "create_report_format", CLIENT_AUTHENTIC⟩
  | CLIENT_CRF_GRFR_REPORT_FORMAT_TRUST =>
    some ⟨[], "create_report_format", CLIENT_AUTHENTIC⟩
  | CLIENT_CREATE_SCHEDULE =>
    some ⟨[("COMMENT", CLIENT_CREATE_SCHEDULE_COMMENT), ("DURATION", CLIENT_CREATE_SCHEDULE_DURATION), ("FIRST_TIME", CLIENT_CREATE_SCHEDULE_FIRST_TIME), ("NAME", CLIENT_CREATE_SCHEDULE_NAME), ("PERIOD", CLIENT_CREATE_SCHEDULE_PERIOD)], "create_schedule", CLIENT_AUTHENTIC⟩
  | CLIENT_CREATE_SCHEDULE_NAME =>
    some ⟨[], "create_schedule", CLIENT_AUTHENTIC⟩
  | CLIENT_CREATE_SCHEDULE_COMMENT =>
    some ⟨[], "create_schedule", CLIENT_AUTHENTIC⟩
  | CLIENT_CREATE_SCHEDULE_FIRST_TIME =>
    some ⟨[("DAY_OF_MONTH", CLIENT_CREATE_SCHEDULE_FIRST_TIME_DAY_OF_MONTH), ("HOUR", CLIENT_CREATE_SCHEDULE_FIRST_TIME_HOUR), ("MINUTE", CLIENT_CREATE_SCHEDULE_FIRST_TIME_MINUTE), ("MONTH", CLIENT_CREATE_SCHEDULE_FIRST_TIME_MONTH), ("YEAR", CLIENT_CREATE_SCHEDULE_FIRST_TIME_YEAR)], "create_schedule", CLIENT_AUTHENTIC⟩
  | CLIENT_CREATE_SCHEDULE_FIRST_TIME_DAY_OF_MONTH =>
    some ⟨[], "create_schedule", CLIENT_AUTHENTIC⟩
  | CLIENT_CREATE_SCHEDULE_FIRST_TIME_HOUR =>
    some ⟨[], "create_schedule", CLIENT_AUTHENTIC⟩
  | CLIENT_CREATE_SCHEDULE_FIRST_TIME_MINUTE =>
    some ⟨[], "create_schedule", CLIENT_AUTHENTIC⟩
  | CLIENT_CREATE_SCHEDULE_FIRST_TIME_MONTH =>
    some ⟨[], "create_schedule", CLIENT_AUTHENTIC⟩
  | CLIENT_CREATE_SCHEDULE_FIRST_TIME_YEAR =>
    some ⟨[], "create_schedule", CLIENT_AUTHENTIC⟩
  | CLIENT_CREATE_SCHEDULE_DURATION =>
    some ⟨[("UNIT", CLIENT_CREATE_SCHEDULE_DURATION_UNIT)], "create_schedule", CLIENT_AUTHENTIC⟩
  | CLIENT_CREATE_SCHEDULE_DURATION_UNIT =>
    some ⟨[], "create_schedule", CLIENT_AUTHENTIC⟩
  | CLIENT_CREATE_SCHEDULE_PERIOD =>
    some ⟨[("UNIT", CLIENT_CREATE_SCHEDULE_PERIOD_UNIT)], "create_schedule", CLIENT_AUTHENTIC⟩
  | CLIENT_CREATE_SCHEDULE_PERIOD_UNIT =>
    some ⟨[], "create_schedule", CLIENT_AUTHENTIC⟩
  | CLIENT_CREATE_SLAVE =>
    some ⟨[("COMMENT", CLIENT_CREATE_SLAVE_COMMENT), ("HOST", CLIENT_CREATE_SLAVE_HOST), ("LOGIN", CLIENT_CREATE_SLAVE_LOGIN), ("NAME", CLIENT_CREATE_SLAVE_NAME), ("PASSWORD", CLIENT_CREATE_SLAVE_PASSWORD), ("PORT", CLIENT_CREATE_SLAVE_PORT)], "create_slave", CLIENT_AUTHENTIC⟩
  | CLIENT_CREATE_TARGET =>
    some ⟨[("COMMENT", CLIENT_CREATE_TARGET_COMMENT), ("HOSTS", CLIENT_CREATE_TARGET_HOSTS), ("LSC_CREDENTIAL", CLIENT_CREATE_TARGET_LSC_CREDENTIAL), ("NAME", CLIENT_CREATE_TARGET_NAME), ("TARGET_LOCATOR", CLIENT_CREATE_TARGET_TARGET_LOCATOR)], "create_target", CLIENT_AUTHENTIC⟩
  | CLIENT_CREATE_TARGET_TARGET_LOCATOR =>
    some ⟨[("PASSWORD", CLIENT_CREATE_TARGET_TARGET_LOCATOR_PASSWORD), ("USERNAME", CLIENT_CREATE_TARGET_TARGET_LOCATOR_USERNAME)], "create_target", CLIENT_AUTHENTIC⟩
  | CLIENT_CREATE_TASK =>
    some ⟨[("RCFILE", CLIENT_CREATE_TASK_RCFILE), ("NAME", CLIENT_CREATE_TASK_NAME), ("COMMENT", CLIENT_CREATE_TASK_COMMENT), ("CONFIG", CLIENT_CREATE_TASK_CONFIG), ("ESCALATOR", CLIENT_CREATE_TASK_ESCALATOR), ("SCHEDULE", CLIENT_CREATE_TASK_SCHEDULE), ("SLAVE", CLIENT_CREATE_TASK_SLAVE), ("TARGET", CLIENT_CREATE_TASK_TARGET)], "create_task", CLIENT_AUTHENTIC⟩
  | CLIENT_DELETE_AGENT =>
    some ⟨[], "delete_agent", CLIENT_AUTHENTIC⟩
  | CLIENT_DELETE_CONFIG =>
    some ⟨[], "delete_config", CLIENT_AUTHENTIC⟩
  | CLIENT_DELETE_ESCALATOR =>
    some ⟨[], "delete_escalator", CLIENT_AUTHENTIC⟩
  | CLIENT_DELETE_LSC_CREDENTIAL =>
    some ⟨[], "delete_lsc_credential", CLIENT_AUTHENTIC⟩
  | CLIENT_DELETE_NOTE =>
    some ⟨[], "delete_note", CLIENT_AUTHENTIC⟩
  | CLIENT_DELETE_OVERRIDE =>
    some ⟨[], "delete_override", CLIENT_AUTHENTIC⟩
  | CLIENT_DELETE_REPORT =>
    some ⟨[], "delete_report", CLIENT_AUTHENTIC⟩
  | CLIENT_DELETE_REPORT_FORMAT =>
    some ⟨[], "delete_report_format", CLIENT_AUTHENTIC⟩
  | CLIENT_DELETE_SCHEDULE =>
    some ⟨[], "delete_schedule", CLIENT_AUTHENTIC⟩
  | CLIENT_DELETE_SLAVE =>
    some ⟨[], "delete_slave", CLIENT_AUTHENTIC⟩
  | CLIENT_DELETE_TASK =>
    some ⟨[], "delete_task", CLIENT_AUTHENTIC⟩
  | CLIENT_DELETE_TARGET =>
    some ⟨[], "delete_target", CLIENT_AUTHENTIC⟩
  | CLIENT_GET_AGENTS =>
    some ⟨[], "get_agents", CLIENT_AUTHENTIC⟩
  | CLIENT_GET_CERTIFICATES =>
    some ⟨[], "get_certificates", CLIENT_AUTHENTIC⟩
  | CLIENT_GET_CONFIGS =>
    some ⟨[], "get_configs", CLIENT_AUTHENTIC⟩
  | CLIENT_GET_DEPENDENCIES =>
    some ⟨[], "get_dependencies", CLIENT_AUTHENTIC⟩
  | CLIENT_GET_ESCALATORS =>
    some ⟨[], "get_escalators", CLIENT_AUTHENTIC⟩
  | CLIENT_GET_LSC_CREDENTIALS =>
    some ⟨[], "get_lsc_credentials", CLIENT_AUTHENTIC⟩
  | CLIENT_GET_NOTES =>
    some ⟨[], "get_notes", CLIENT_AUTHENTIC⟩
  | CLIENT_GET_NVTS =>
    some ⟨[], "get_nvts", CLIENT_AUTHENTIC⟩
  | CLIENT_GET_NVT_FAMILIES =>
    some ⟨[], "get_nvt_families", CLIENT_AUTHENTIC⟩
  | CLIENT_GET_NVT_FEED_CHECKSUM =>
    some ⟨[], "get_nvt_feed_checksum", CLIENT_AUTHENTIC⟩
  | CLIENT_GET_OVERRIDES =>
    some ⟨[], "get_overrides", CLIENT_AUTHENTIC⟩
  | CLIENT_GET_PREFERENCES =>
    some ⟨[], "get_preferences", CLIENT_AUTHENTIC⟩
  | CLIENT_GET_REPORTS =>
    some ⟨[], "get_reports", CLIENT_AUTHENTIC⟩
  | CLIENT_GET_REPORT_FORMATS =>
    some ⟨[], "get_report_formats", CLIENT_AUTHENTIC⟩
  | CLIENT_GET_RESULTS =>
    some ⟨[], "get_results", CLIENT_AUTHENTIC⟩
  | CLIENT_GET_SCHEDULES =>
    some ⟨[], "get_schedules", CLIENT_AUTHENTIC⟩
  | CLIENT_GET_SLAVES =>
    some ⟨[], "get_slaves", CLIENT_AUTHENTIC⟩
  | CLIENT_GET_SYSTEM_REPORTS =>
    some ⟨[], "get_system_reports", CLIENT_AUTHENTIC⟩
  | CLIENT_GET_TARGET_LOCATORS =>
    some ⟨[], "get_target_locators", CLIENT_AUTHENTIC⟩
  | CLIENT_GET_TARGETS =>
    some ⟨[], "get_targets", CLIENT_AUTHENTIC⟩
  | CLIENT_GET_TASKS =>
    some ⟨[], "get_tasks", CLIENT_AUTHENTIC⟩
  | CLIENT_HELP =>
    some ⟨[], "help", CLIENT_AUTHENTIC⟩
  | CLIENT_MODIFY_REPORT =>
    some ⟨[("COMMENT", CLIENT_MODIFY_REPORT_COMMENT)], "modify_report", CLIENT_AUTHENTIC⟩
  | CLIENT_MODIFY_REPORT_FORMAT =>
    some ⟨[("NAME", CLIENT_MODIFY_REPORT_FORMAT_NAME), ("SUMMARY", CLIENT_MODIFY_REPORT_FORMAT_SUMMARY)], "modify_report_format", CLIENT_AUTHENTIC⟩
  | CLIENT_MODIFY_CONFIG =>
    some ⟨[("FAMILY_SELECTION", CLIENT_MODIFY_CONFIG_FAMILY_SELECTION), ("NVT_SELECTION", CLIENT_MODIFY_CONFIG_NVT_SELECTION), ("PREFERENCE", CLIENT_MODIFY_CONFIG_PREFERENCE)], "modify_config", CLIENT_AUTHENTIC⟩
  | CLIENT_MODIFY_CONFIG_PREFERENCE =>
    some ⟨[("NAME", CLIENT_MODIFY_CONFIG_PREFERENCE_NAME), ("NVT", CLIENT_MODIFY_CONFIG_PREFERENCE_NVT), ("VALUE", CLIENT_MODIFY_CONFIG_PREFERENCE_VALUE)], "modify_config", CLIENT_AUTHENTIC⟩
  | CLIENT_MODIFY_CONFIG_FAMILY_SELECTION =>
    some ⟨[("FAMILY", CLIENT_MODIFY_CONFIG_FAMILY_SELECTION_FAMILY), ("GROWING", CLIENT_MODIFY_CONFIG_FAMILY_SELECTION_GROWING)], "modify_config", CLIENT_AUTHENTIC⟩
  | CLIENT_MODIFY_CONFIG_FAMILY_SELECTION_FAMILY =>
    some ⟨[("ALL", CLIENT_MODIFY_CONFIG_FAMILY_SELECTION_FAMILY_ALL), ("GROWING", CLIENT_MODIFY_CONFIG_FAMILY_SELECTION_FAMILY_GROWING), ("NAME", CLIENT_MODIFY_CONFIG_FAMILY_SELECTION_FAMILY_NAME)], "modify_config", CLIENT_AUTHENTIC⟩
  | CLIENT_MODIFY_CONFIG_NVT_SELECTION =>
    some ⟨[("FAMILY", CLIENT_MODIFY_CONFIG_NVT_SELECTION_FAMILY), ("NVT", CLIENT_MODIFY_CONFIG_NVT_SELECTION_NVT)], "modify_config", CLIENT_AUTHENTIC⟩
  | CLIENT_MODIFY_NOTE =>
    some ⟨[("HOSTS", CLIENT_MODIFY_NOTE_HOSTS), ("PORT", CLIENT_MODIFY_NOTE_PORT), ("RESULT", CLIENT_MODIFY_NOTE_RESULT), ("TASK", CLIENT_MODIFY_NOTE_TASK), ("TEXT", CLIENT_MODIFY_NOTE_TEXT), ("THREAT", CLIENT_MODIFY_NOTE_THREAT)], "MODIFY_note", CLIENT_AUTHENTIC⟩
  | CLIENT_MODIFY_OVERRIDE =>
    some ⟨[("HOSTS", CLIENT_MODIFY_OVERRIDE_HOSTS), ("NEW_THREAT", CLIENT_MODIFY_OVERRIDE_NEW_THREAT), ("PORT", CLIENT_MODIFY_OVERRIDE_PORT), ("RESULT", CLIENT_MODIFY_OVERRIDE_RESULT), ("TASK", CLIENT_MODIFY_OVERRIDE_TASK), ("TEXT", CLIENT_MODIFY_OVERRIDE_TEXT), ("THREAT", CLIENT_MODIFY_OVERRIDE_THREAT)], "modify_override", CLIENT_AUTHENTIC⟩
  | CLIENT_MODIFY_TASK =>
    some ⟨[("COMMENT", CLIENT_MODIFY_TASK_COMMENT), ("ESCALATOR", CLIENT_MODIFY_TASK_ESCALATOR), ("NAME", CLIENT_MODIFY_TASK_NAME), ("RCFILE", CLIENT_MODIFY_TASK_RCFILE), ("SCHEDULE", CLIENT_MODIFY_TASK_SCHEDULE), ("FILE", CLIENT_MODIFY_TASK_FILE)], "modify_task", CLIENT_AUTHENTIC⟩
  | CLIENT_PAUSE_TASK =>
    some ⟨[], "pause_task", CLIENT_AUTHENTIC⟩
  | CLIENT_RESUME_OR_START_TASK =>
    some ⟨[], "resume_or_start_task", CLIENT_AUTHENTIC⟩
  | CLIENT_RESUME_PAUSED_TASK =>
    some ⟨[], "resume_paused_task", CLIENT_AUTHENTIC⟩
  | CLIENT_RESUME_STOPPED_TASK =>
    some ⟨[], "resume_stopped_task", CLIENT_AUTHENTIC⟩
  | CLIENT_START_TASK =>
    some ⟨[], "start_task", CLIENT_AUTHENTIC⟩
  | CLIENT_STOP_TASK =>
    some ⟨[], "stop_task", CLIENT_AUTHENTIC⟩
  | CLIENT_TEST_ESCALATOR =>
    some ⟨[], "test_escalator", CLIENT_AUTHENTIC⟩
  | CLIENT_VERIFY_AGENT =>
    some ⟨[], "verify_agent", CLIENT_AUTHENTIC⟩
  | CLIENT_VERIFY_REPORT_FORMAT =>
    some ⟨[], "verify_report_format", CLIENT_AUTHENTIC⟩
  | _ => none

/-! ## The start-element handler (src/omp.c lines 3380-6431) -/

/-- ASCII upper-casing of one character, as strcasecmp folds case. -/
def upChar (c : Char) : Char :=
  if 97 ≤ c.toNat ∧ c.toNat ≤ 122 then Char.ofNat (c.toNat - 32) else c

/-- strcasecmp (a, b) == 0: the two strings are equal up to ASCII case. -/
def strcasecmpEq (a b : String) : Bool :=
  a.data.map upChar == b.data.map upChar

/-- The else-if chain over a transition table: the first entry whose name
matches the element name case-insensitively wins. -/
def lookupCase (name : String) : List (String × ClientState) → Option ClientState
  | [] => none
  | (k, t) :: rest => if strcasecmpEq k name then some t else lookupCase name rest

/-- Observable result of one start-element callback: the messages handed to
send_to_client in order, the client state afterwards, and the GError message
set on the parser (none when parsing may continue). -/
structure StartOutcome where
  responses : List String
  newState : ClientState
  parseError : Option String
deriving DecidableEq, Repr

/-- The open COMMANDS wrapper response sent when a COMMANDS element is
accepted (lines 3410-3412 and 3448-3450). -/
def commandsOkOpen : String :=
  "<commands_response status=\"" ++ STATUS_OK ++ "\" status_text=\""
    ++ STATUS_OK_TEXT ++ "\">"

/-- The pre-authentication rejection message (lines 3418-3421). -/
def mustAuthMsg : String :=
  XML_ERROR_SYNTAX "omp"
    "First command must be AUTHENTICATE, COMMANDS or GET_VERSION"

/-- CLIENT_TOP (after its GET_VERSION check) and CLIENT_COMMANDS share one
branch (lines 3396-3435).  writeOk models whether send_to_client succeeds;
when it fails the handler takes the early return of error_send_to_client.
The closing commands_response of line 3429 is sent with the result ignored,
so it is emitted whenever the first send succeeded. -/
def topCommandsStart (writeOk : Bool) (s : ClientState) (element_name : String) :
    StartOutcome :=
  if strcasecmpEq "AUTHENTICATE" element_name then
    ⟨[], ClientState.CLIENT_AUTHENTICATE, none⟩
  else if strcasecmpEq "COMMANDS" element_name then
    if writeOk then ⟨[commandsOkOpen], ClientState.CLIENT_COMMANDS, none⟩
    else ⟨[], s, some outOfSpaceMsg⟩
  else
    if writeOk then
      ⟨mustAuthMsg ::
          (if s = ClientState.CLIENT_COMMANDS then ["</commands_response>"] else []),
        s, some "Must authenticate first."⟩
    else ⟨[], s, some outOfSpaceMsg⟩

/-- CLIENT_AUTHENTIC and CLIENT_AUTHENTIC_COMMANDS (lines 3437-4208): the
AUTHENTICATE and COMMANDS branches first (the former also saves and frees the
task cache and frees the current credentials, side effects on the session
modelled elsewhere), then the command table, then the bogus-command-name
rejection which leaves the state unchanged. -/
def authenticStart (writeOk : Bool) (s : ClientState) (element_name : String) :
    StartOutcome :=
  if strcasecmpEq "AUTHENTICATE" element_name then
    ⟨[], ClientState.CLIENT_AUTHENTICATE, none⟩
  else if strcasecmpEq "COMMANDS" element_name then
    if writeOk then ⟨[commandsOkOpen], ClientState.CLIENT_AUTHENTIC_COMMANDS, none⟩
    else ⟨[], s, some outOfSpaceMsg⟩
  else
    match lookupCase element_name authenticCommands with
    | some t => ⟨[], t, none⟩
    | none =>
      if writeOk then
        ⟨[XML_ERROR_SYNTAX "omp" "Bogus command name"], s, some "Error"⟩
      else ⟨[], s, some outOfSpaceMsg⟩

/-- A state with its own transition table: accepted names move to the child
state; anything else is the bogus-element error path, which sends one
syntax-error response naming the element, falls back to the state recorded in
the table, and sets the parse error "Error" (the uniform else branches of
lines 4210-6420). -/
def tableStart (writeOk : Bool) (s : ClientState) (e : StartEntry)
    (element_name : String) : StartOutcome :=
  match lookupCase element_name e.accepts with
  | some t => ⟨[], t, none⟩
  | none =>
    if writeOk then
      ⟨[send_element_error_msg e.cmd element_name], e.fallback, some "Error"⟩
    else ⟨[], s, some outOfSpaceMsg⟩

/-- omp_xml_handle_start_element (lines 3380-6431).  A state without its own case in the switch hits the default branch
(lines 6422-6429): assert(0) in development builds, and in production only
the parse error "Manager programming error." is set, with no response sent
and no state change. -/
def omp_xml_handle_start_element (writeOk : Bool) (s : ClientState)
    (element_name : String) : StartOutcome :=
  if s = ClientState.CLIENT_TOP then
    if strcasecmpEq "GET_VERSION" element_name then
      ⟨[], ClientState.CLIENT_GET_VERSION, none⟩
    else topCommandsStart writeOk s element_name
  else if s = ClientState.CLIENT_COMMANDS then
    topCommandsStart writeOk s element_name
  else if s = ClientState.CLIENT_AUTHENTIC ∨ s = ClientState.CLIENT_AUTHENTIC_COMMANDS then
    authenticStart writeOk s element_name
  else
    match startTable s with
    | some e => tableStart writeOk s e element_name
    | none => ⟨[], s, some "Manager programming error."⟩

/-! ## The to_client output buffer and send_to_client (src/omp.c lines 2672-3002)

The buffer is a fixed array of TO_CLIENT_BUFFER_SIZE bytes with two cursors:
bytes in [to_client_start, to_client_end) are queued and not yet written.
send_to_client appends at to_client_end; the host's write callback drains
from to_client_start.  TO_CLIENT_BUFFER_SIZE is defined outside src/, so the
capacity is a parameter here.  The buffer state also records every byte
handed to the write callback, in order, to state the no-loss property. -/

/-- The to_client buffer: the start cursor, the queued bytes (those between
the cursors, so the end cursor is to_client_start + pending.length), and the
bytes drained to the write callback so far. -/
structure ToClient where
  to_client_start : Nat
  pending : List Nat
  written : List Nat
deriving DecidableEq, Repr

/-- The end cursor to_client_end. -/
def to_client_end (b : ToClient) : Nat := b.to_client_start + b.pending.length

/-- One outcome of the host's write callback: a fatal error, or the client
accepting up to k of the queued bytes. -/
inductive CbEvent
  | cbError
  | accept (k : Nat)
deriving DecidableEq, Repr

/-- Modelled from the spec: the host's write callback (outside src/; spec 4.4
lists its outcomes: "wrote everything queued; wrote only part; fatal error;
wrote as much as the client currently accepts", and send_to_client's switch
at lines 2966-2979 reads them as 0, -2, -1, -2).  On accept k it drains
min k pending.length bytes from the front; when that empties the queue it
returns 0 and resets both cursors, otherwise it returns -2 and advances only
to_client_start, so the free space after to_client_end does not grow.  On a
fatal error it returns -1. -/
def write_to_client : CbEvent → ToClient → Int × ToClient
  | CbEvent.cbError, b => (-1, b)
  | CbEvent.accept k, b =>
    let k := min k b.pending.length
    let written := b.written ++ b.pending.take k
    if (b.pending.drop k).isEmpty then (0, ⟨0, [], written⟩)
    else (-2, ⟨b.to_client_start + k, b.pending.drop k, written⟩)

/-- The memmove at lines 2986-2989 and 2996-2998: append bytes at
to_client_end. -/
def bufAppend (msg : List Nat) (b : ToClient) : ToClient :=
  { b with pending := b.pending ++ msg }

/-- send_to_client (lines 2951-3002) run against an explicit script of write
callback outcomes, one per drain-loop iteration; cap is
TO_CLIENT_BUFFER_SIZE.  Returns some (failed, buffer) when the function
returns — failed is its gboolean result, TRUE exactly on a fatal callback
error — and none when the drain loop is still running after the whole script
is consumed. -/
def send_to_client (cap : Nat) : List CbEvent → List Nat → ToClient →
    Option (Bool × ToClient)
  | [], msg, b =>
    if cap - to_client_end b < msg.length then none
    else some (false, bufAppend msg b)
  | e :: rest, msg, b =>
    if cap - to_client_end b < msg.length then
      if (write_to_client e b).1 = -1 then some (true, (write_to_client e b).2)
      else
        if cap - to_client_end (write_to_client e b).2 > msg.length then
          some (false, bufAppend msg (write_to_client e b).2)
        else
          send_to_client cap rest
            (msg.drop (cap - to_client_end (write_to_client e b).2))
            (bufAppend (msg.take (cap - to_client_end (write_to_client e b).2))
              (write_to_client e b).2)
    else some (false, bufAppend msg b)

/-- A sequence of send_to_client calls, each with its own callback script;
none as soon as one call fails or runs out of script. -/
def send_all (cap : Nat) : List (List CbEvent × List Nat) → ToClient →
    Option ToClient
  | [], b => some b
  | (script, msg) :: rest, b =>
    match send_to_client cap script msg b with
    | some (false, b2) => send_all cap rest b2
    | _ => none

/-- The drain loop never exits when every callback invocation answers e:
however long the constant-outcome script, send_to_client is still looping
when it runs out. -/
def send_to_client_diverges (cap : Nat) (e : CbEvent) (msg : List Nat)
    (b : ToClient) : Prop :=
  ∀ n : Nat, send_to_client cap (List.replicate n e) msg b = none


/-! ## Backend oracle types

find_<resource>, authenticate, load_tasks, start_task, stop_task,
resume_stopped_task and request_delete_task live in the management backend
(manage.c / manage.h), outside src/; the end-element handlers below take
their results as parameters, except request_delete_task, which claim C4 is
about and which is therefore modelled from the spec. -/

/-- Result of find_task and friends as the handlers read it: a nonzero
return (lookup failed), a zero handle (no such resource), or a handle. -/
inductive FindOutcome
  | findError
  | notFound
  | found
deriving DecidableEq, Repr

/-- Result of authenticate (read at line 7382): 0 success, 1 failure,
-1 error. -/
inductive AuthResult
  | ok
  | failed
  | authError
deriving DecidableEq, Repr

/-- Task status enumeration, from the spec's data model ("Task Handle +
Status: opaque id plus enumerated status"). -/
inductive TaskStatus
  | New
  | RequestedStart
  | Running
  | RequestedPause
  | Paused
  | RequestedStop
  | Stopped
  | Done
  | RequestedDelete
  | Deleted
deriving DecidableEq, Repr

/-- A task as the delete path sees it: its status and whether it is the
reserved bookkeeping (hidden) task. -/
structure TaskRec where
  status : TaskStatus
  hidden : Bool
deriving DecidableEq, Repr

/-- Modelled from the spec: request_delete_task lives in the management
backend (manage.c), not under src/.  Spec 4.5: "Delete is two-phase: idle
task ⇒ removed immediately (terminal Deleted, response OK); active task ⇒
deletion flagged only (response Requested), actually performed by the
backend once the run finishes", with New/Stopped/Done the idle statuses
(spec 8, "DELETE_TASK on New/Stopped returns OK immediately"), and "One
reserved bookkeeping task ... is excluded from deletion" — the hidden-task
return read as 2 by the dispatcher (line 9100).  Returns the dispatcher's
code and the task record afterwards: none means the task was removed. -/
def request_delete_task (t : TaskRec) : Int × Option TaskRec :=
  if t.hidden then (2, some t)
  else
    match t.status with
    | TaskStatus.New => (0, none)
    | TaskStatus.Stopped => (0, none)
    | TaskStatus.Done => (0, none)
    | _ => (1, some { t with status := TaskStatus.RequestedDelete })

/-! ## End-element handlers for the commands the claims concern
(omp_xml_handle_end_element, src/omp.c lines 7363-14938) -/

/-- Observable result of closing AUTHENTICATE (lines 7381-7412). -/
structure AuthOutcome where
  responses : List String
  newState : ClientState
  credentials_freed : Bool
  parseError : Option String
deriving DecidableEq, Repr

/-- Closing AUTHENTICATE (lines 7381-7412): authenticate(&current_credentials)
decides; on success load_tasks runs, and its failure is an internal error
that frees the credentials and returns to CLIENT_TOP; failure frees the
credentials, answers the auth-failed response and returns to CLIENT_TOP;
an authenticate error behaves like failure with the internal-error
response.  writeOk models SEND_TO_CLIENT_OR_FAIL's early return. -/
def omp_end_authenticate (writeOk : Bool) (auth : AuthResult)
    (loadTasksFails : Bool) : AuthOutcome :=
  match auth with
  | AuthResult.ok =>
    if loadTasksFails then
      if writeOk then
        ⟨[XML_INTERNAL_ERROR "authenticate"], ClientState.CLIENT_TOP, true,
          some "Manager failed to load tasks."⟩
      else
        ⟨[], ClientState.CLIENT_AUTHENTICATE, true,
          some "Manager failed to load tasks."⟩
    else
      if writeOk then ⟨[XML_OK "authenticate"], ClientState.CLIENT_AUTHENTIC, false, none⟩
      else ⟨[], ClientState.CLIENT_AUTHENTICATE, false, some outOfSpaceMsg⟩
  | AuthResult.failed =>
    if writeOk then
      ⟨[XML_ERROR_AUTH_FAILED "authenticate"], ClientState.CLIENT_TOP, true, none⟩
    else ⟨[], ClientState.CLIENT_AUTHENTICATE, true, some outOfSpaceMsg⟩
  | AuthResult.authError =>
    if writeOk then
      ⟨[XML_INTERNAL_ERROR "authenticate"], ClientState.CLIENT_TOP, true, none⟩
    else ⟨[], ClientState.CLIENT_AUTHENTICATE, true, some outOfSpaceMsg⟩

/-- The GET_VERSION response (lines 8708-8712). -/
def get_version_response : String :=
  "<get_version_response status=\"" ++ STATUS_OK ++ "\" status_text=\""
    ++ STATUS_OK_TEXT
    ++ "\"><version>1.0</version></get_version_response>"

/-- Closing GET_VERSION (lines 8706-8717), reached in states
CLIENT_GET_VERSION and CLIENT_GET_VERSION_AUTHENTIC.  The source then runs
`if (client_state) set_client_state (CLIENT_AUTHENTIC); else
set_client_state (CLIENT_TOP);` — a test of the state's C enum integer
value, which toCtorIdx is, the constructors being declared in the enum's
order with CLIENT_TOP first. -/
def omp_end_get_version (writeOk : Bool) (s : ClientState) : StartOutcome :=
  if writeOk then
    ⟨[get_version_response],
      if ClientState.toCtorIdx s ≠ 0 then ClientState.CLIENT_AUTHENTIC
      else ClientState.CLIENT_TOP,
      none⟩
  else ⟨[], s, some outOfSpaceMsg⟩

/-- Observable result of closing one of the task commands: the responses in
order, the client state afterwards, whether the command's staging record was
reset (delete_task_data_reset and friends), whether the process called
abort(), and the parse error if one was set. -/
structure TaskCmdOutcome where
  responses : List String
  newState : ClientState
  staging_reset : Bool
  aborted : Bool
  parseError : Option String
deriving DecidableEq, Repr

/-- The early return taken when a send fails inside a task-command handler:
no reset, no state change, out-of-space parse error. -/
def sendFailedOutcome (s : ClientState) : TaskCmdOutcome :=
  ⟨[], s, false, false, some outOfSpaceMsg⟩

/-- Closing DELETE_TASK (lines 9068-9126).  task_id is the staged attribute;
find is find_task's outcome; ret is request_delete_task's return, read as
0 deleted, 1 delete requested, 2 hidden task, anything else abort() (the
default arm's assert(0) falls through into case -1).  Every path that
returns normally resets the staging and sets CLIENT_AUTHENTIC. -/
def omp_end_delete_task (writeOk : Bool) (task_id : Option String)
    (find : FindOutcome) (ret : Int) : TaskCmdOutcome :=
  match task_id with
  | none =>
    if writeOk then
      ⟨[XML_ERROR_SYNTAX "delete_task" "DELETE_TASK requires a task_id attribute"],
        ClientState.CLIENT_AUTHENTIC, true, false, none⟩
    else sendFailedOutcome ClientState.CLIENT_DELETE_TASK
  | some id =>
    match find with
    | FindOutcome.findError =>
      if writeOk then
        ⟨[XML_INTERNAL_ERROR "delete_task"], ClientState.CLIENT_AUTHENTIC, true,
          false, none⟩
      else sendFailedOutcome ClientState.CLIENT_DELETE_TASK
    | FindOutcome.notFound =>
      if writeOk then
        ⟨[send_find_error_msg "delete_task" "task" id],
          ClientState.CLIENT_AUTHENTIC, true, false, none⟩
      else sendFailedOutcome ClientState.CLIENT_DELETE_TASK
    | FindOutcome.found =>
      if ret = 0 then
        if writeOk then
          ⟨[XML_OK "delete_task"], ClientState.CLIENT_AUTHENTIC, true, false, none⟩
        else sendFailedOutcome ClientState.CLIENT_DELETE_TASK
      else if ret = 1 then
        if writeOk then
          ⟨[XML_OK_REQUESTED "delete_task"], ClientState.CLIENT_AUTHENTIC, true,
            false, none⟩
        else sendFailedOutcome ClientState.CLIENT_DELETE_TASK
      else if ret = 2 then
        if writeOk then
          ⟨[XML_ERROR_SYNTAX "delete_task" "Attempt to delete a hidden task"],
            ClientState.CLIENT_AUTHENTIC, true, false, none⟩
        else sendFailedOutcome ClientState.CLIENT_DELETE_TASK
      else ⟨[], ClientState.CLIENT_DELETE_TASK, false, true, none⟩

/-- DELETE_TASK against the spec-modelled backend: find succeeded with the
given task record, request_delete_task decides, and the pair is the handler
outcome and the task record after the backend ran (none = removed). -/
def delete_task_on (id : String) (t : TaskRec) : TaskCmdOutcome × Option TaskRec :=
  let r := request_delete_task t
  (omp_end_delete_task true (some id) FindOutcome.found r.1, r.2)


/-- Observable result of closing START_TASK or RESUME_STOPPED_TASK: the
common task-command fields plus the forked flag afterwards and the value
stashed in current_error for a forked child. -/
structure StartTaskOutcome where
  responses : List String
  newState : ClientState
  staging_reset : Bool
  aborted : Bool
  parseError : Option String
  forked_after : Nat
  current_error : Option Int
deriving DecidableEq, Repr

/-- The early-return outcome of a failed send inside START_TASK or
RESUME_STOPPED_TASK. -/
def sendFailedStartOutcome (s : ClientState) (forked : Nat) : StartTaskOutcome :=
  ⟨[], s, false, false, some outOfSpaceMsg, forked, none⟩

/-- The 202 response of a successful start_task, with the new report id
(lines 12275-12283). -/
def start_task_ok_response (report_id : String) : String :=
  "<start_task_response status=\"" ++ STATUS_OK_REQUESTED ++ "\" status_text=\""
    ++ STATUS_OK_REQUESTED_TEXT ++ "\"><report_id>" ++ report_id
    ++ "</report_id></start_task_response>"

/-- Closing START_TASK (lines 12245-12365).  task_id is the staged
attribute, find is find_task's outcome, forked the process-wide flag, ret
start_task's return and report_id the id it produced on success.  forked = 2
on a found task aborts (line 12266).  ret reads: 0 started (response 202
with the report id, forked := 1); 1 task already active (syntax error);
2 and -10 forked child, which stashes ret in current_error and sets the
dummy parse error; -6 another task already running in this process (syntax
error); everything else (-2, -4, -3 and the asserting default) the internal
error.  Every normal return resets the staging and sets CLIENT_AUTHENTIC. -/
def omp_end_start_task (writeOk : Bool) (task_id : Option String)
    (find : FindOutcome) (forked : Nat) (ret : Int) (report_id : String) :
    StartTaskOutcome :=
  match task_id with
  | none =>
    if writeOk then
      ⟨[XML_ERROR_SYNTAX "start_task" "START_TASK task_id attribute must be set"],
        ClientState.CLIENT_AUTHENTIC, true, false, none, forked, none⟩
    else sendFailedStartOutcome ClientState.CLIENT_START_TASK forked
  | some id =>
    match find with
    | FindOutcome.findError =>
      if writeOk then
        ⟨[XML_INTERNAL_ERROR "start_task"], ClientState.CLIENT_AUTHENTIC, true,
          false, none, forked, none⟩
      else sendFailedStartOutcome ClientState.CLIENT_START_TASK forked
    | FindOutcome.notFound =>
      if writeOk then
        ⟨[send_find_error_msg "start_task" "task" id],
          ClientState.CLIENT_AUTHENTIC, true, false, none, forked, none⟩
      else sendFailedStartOutcome ClientState.CLIENT_START_TASK forked
    | FindOutcome.found =>
      if forked = 2 then
        ⟨[], ClientState.CLIENT_START_TASK, false, true, none, forked, none⟩
      else if ret = 0 then
        if writeOk then
          ⟨[start_task_ok_response report_id], ClientState.CLIENT_AUTHENTIC, true,
            false, none, 1, none⟩
        else sendFailedStartOutcome ClientState.CLIENT_START_TASK forked
      else if ret = 1 then
        if writeOk then
          ⟨[XML_ERROR_SYNTAX "start_task" "Task is active already"],
            ClientState.CLIENT_AUTHENTIC, true, false, none, forked, none⟩
        else sendFailedStartOutcome ClientState.CLIENT_START_TASK forked
      else if ret = 2 then
        ⟨[], ClientState.CLIENT_AUTHENTIC, true, false,
          some "Dummy error for current_error", forked, some 2⟩
      else if ret = -10 then
        ⟨[], ClientState.CLIENT_AUTHENTIC, true, false,
          some "Dummy error for current_error", forked, some (-10)⟩
      else if ret = -6 then
        if writeOk then
          ⟨[XML_ERROR_SYNTAX "start_task"
              "There is already a task running in this process"],
            ClientState.CLIENT_AUTHENTIC, true, false, none, forked, none⟩
        else sendFailedStartOutcome ClientState.CLIENT_START_TASK forked
      else
        if writeOk then
          ⟨[XML_INTERNAL_ERROR "start_task"], ClientState.CLIENT_AUTHENTIC, true,
            false, none, forked, none⟩
        else sendFailedStartOutcome ClientState.CLIENT_START_TASK forked

/-- The 202 response of a successful resume_stopped_task (lines
12146-12153). -/
def resume_stopped_task_ok_response (report_id : String) : String :=
  "<resume_stopped_task_response status=\"" ++ STATUS_OK_REQUESTED
    ++ "\" status_text=\"" ++ STATUS_OK_REQUESTED_TEXT ++ "\"><report_id>"
    ++ report_id ++ "</report_id></resume_stopped_task_response>"

/-- Closing RESUME_STOPPED_TASK (lines 12115-12243).  Like START_TASK with
two differences of the source: ret = 22 answers the syntax error "Task must
be in Stopped state", and a missing task_id answers the internal error
(line 12240), not a syntax error. -/
def omp_end_resume_stopped_task (writeOk : Bool) (task_id : Option String)
    (find : FindOutcome) (forked : Nat) (ret : Int) (report_id : String) :
    StartTaskOutcome :=
  match task_id with
  | none =>
    if writeOk then
      ⟨[XML_INTERNAL_ERROR "resume_stopped_task"],
        ClientState.CLIENT_AUTHENTIC, true, false, none, forked, none⟩
    else sendFailedStartOutcome ClientState.CLIENT_RESUME_STOPPED_TASK forked
  | some id =>
    match find with
    | FindOutcome.findError =>
      if writeOk then
        ⟨[XML_INTERNAL_ERROR "resume_stopped_task"], ClientState.CLIENT_AUTHENTIC,
          true, false, none, forked, none⟩
      else sendFailedStartOutcome ClientState.CLIENT_RESUME_STOPPED_TASK forked
    | FindOutcome.notFound =>
      if writeOk then
        ⟨[send_find_error_msg "resume_stopped_task" "task" id],
          ClientState.CLIENT_AUTHENTIC, true, false, none, forked, none⟩
      else sendFailedStartOutcome ClientState.CLIENT_RESUME_STOPPED_TASK forked
    | FindOutcome.found =>
      if forked = 2 then
        ⟨[], ClientState.CLIENT_RESUME_STOPPED_TASK, false, true, none, forked, none⟩
      else if ret = 0 then
        if writeOk then
          ⟨[resume_stopped_task_ok_response report_id],
            ClientState.CLIENT_AUTHENTIC, true, false, none, 1, none⟩
        else sendFailedStartOutcome ClientState.CLIENT_RESUME_STOPPED_TASK forked
      else if ret = 1 then
        if writeOk then
          ⟨[XML_ERROR_SYNTAX "resume_stopped_task" "Task is active already"],
            ClientState.CLIENT_AUTHENTIC, true, false, none, forked, none⟩
        else sendFailedStartOutcome ClientState.CLIENT_RESUME_STOPPED_TASK forked
      else if ret = 22 then
        if writeOk then
          ⟨[XML_ERROR_SYNTAX "resume_stopped_task" "Task must be in Stopped state"],
            ClientState.CLIENT_AUTHENTIC, true, false, none, forked, none⟩
        else sendFailedStartOutcome ClientState.CLIENT_RESUME_STOPPED_TASK forked
      else if ret = 2 then
        ⟨[], ClientState.CLIENT_AUTHENTIC, true, false,
          some "Dummy error for current_error", forked, some 2⟩
      else if ret = -10 then
        ⟨[], ClientState.CLIENT_AUTHENTIC, true, false,
          some "Dummy error for current_error", forked, some (-10)⟩
      else if ret = -6 then
        if writeOk then
          ⟨[XML_ERROR_SYNTAX "resume_stopped_task"
              "There is already a task running in this process"],
            ClientState.CLIENT_AUTHENTIC, true, false, none, forked, none⟩
        else sendFailedStartOutcome ClientState.CLIENT_RESUME_STOPPED_TASK forked
      else
        if writeOk then
          ⟨[XML_INTERNAL_ERROR "resume_stopped_task"],
            ClientState.CLIENT_AUTHENTIC, true, false, none, forked, none⟩
        else sendFailedStartOutcome ClientState.CLIENT_RESUME_STOPPED_TASK forked

/-- Closing STOP_TASK (lines 12367-12415).  ret reads stop_task's return:
0 stopped (200), 1 stop requested (202), anything else abort() (the default
arm's assert(0) falls through into case -1). -/
def omp_end_stop_task (writeOk : Bool) (task_id : Option String)
    (find : FindOutcome) (ret : Int) : TaskCmdOutcome :=
  match task_id with
  | none =>
    if writeOk then
      ⟨[XML_ERROR_SYNTAX "stop_task" "STOP_TASK requires a task_id attribute"],
        ClientState.CLIENT_AUTHENTIC, true, false, none⟩
    else sendFailedOutcome ClientState.CLIENT_STOP_TASK
  | some id =>
    match find with
    | FindOutcome.findError =>
      if writeOk then
        ⟨[XML_INTERNAL_ERROR "stop_task"], ClientState.CLIENT_AUTHENTIC, true,
          false, none⟩
      else sendFailedOutcome ClientState.CLIENT_STOP_TASK
    | FindOutcome.notFound =>
      if writeOk then
        ⟨[send_find_error_msg "stop_task" "task" id],
          ClientState.CLIENT_AUTHENTIC, true, false, none⟩
      else sendFailedOutcome ClientState.CLIENT_STOP_TASK
    | FindOutcome.found =>
      if ret = 0 then
        if writeOk then
          ⟨[XML_OK "stop_task"], ClientState.CLIENT_AUTHENTIC, true, false, none⟩
        else sendFailedOutcome ClientState.CLIENT_STOP_TASK
      else if ret = 1 then
        if writeOk then
          ⟨[XML_OK_REQUESTED "stop_task"], ClientState.CLIENT_AUTHENTIC, true,
            false, none⟩
        else sendFailedOutcome ClientState.CLIENT_STOP_TASK
      else ⟨[], ClientState.CLIENT_STOP_TASK, false, true, none⟩

/-- The open tag of the GET_TASKS success response (lines 13383-13385). -/
def get_tasks_ok_open : String :=
  "<get_tasks_response status=\"" ++ STATUS_OK ++ "\" status_text=\""
    ++ STATUS_OK_TEXT ++ "\">"

/-- Closing GET_TASKS (lines 13357-14173).  With a staged task_id, a failed
lookup answers the internal error and an unknown id the find error; the
success path renders the task list from the backend's iterators, taken here
as the parameter okBody, between the open tag and the closing tag.  All
normal paths reset the staging and set CLIENT_AUTHENTIC. -/
def omp_end_get_tasks (writeOk : Bool) (task_id : Option String)
    (find : FindOutcome) (okBody : List String) : TaskCmdOutcome :=
  match task_id with
  | some id =>
    match find with
    | FindOutcome.findError =>
      if writeOk then
        ⟨[XML_INTERNAL_ERROR "get_tasks"], ClientState.CLIENT_AUTHENTIC, true,
          false, none⟩
      else sendFailedOutcome ClientState.CLIENT_GET_TASKS
    | FindOutcome.notFound =>
      if writeOk then
        ⟨[send_find_error_msg "get_tasks" "task" id],
          ClientState.CLIENT_AUTHENTIC, true, false, none⟩
      else sendFailedOutcome ClientState.CLIENT_GET_TASKS
    | FindOutcome.found =>
      if writeOk then
        ⟨get_tasks_ok_open :: okBody ++ ["</get_tasks_response>"],
          ClientState.CLIENT_AUTHENTIC, true, false, none⟩
      else sendFailedOutcome ClientState.CLIENT_GET_TASKS
  | none =>
    if writeOk then
      ⟨get_tasks_ok_open :: okBody ++ ["</get_tasks_response>"],
        ClientState.CLIENT_AUTHENTIC, true, false, none⟩
    else sendFailedOutcome ClientState.CLIENT_GET_TASKS


/-- The STATUS_OK_CREATED_TEXT constant (line 523). -/
def STATUS_OK_CREATED_TEXT : String := "OK, resource created"

/-- The XML_OK_CREATED_ID macro (lines 3155-3159): a created response
carrying the new resource's id. -/
def XML_OK_CREATED_ID (tag id : String) : String :=
  "<" ++ tag ++ "_response status=\"" ++ STATUS_OK_CREATED
    ++ "\" status_text=\"" ++ STATUS_OK_CREATED_TEXT ++ "\" id=\"" ++ id
    ++ "\"/>"

/-- The id attributes staged for CREATE_TASK (create_task_data); the name,
comment and rcfile are stored into the task itself while parsing and are
read back from the backend at close. -/
structure CreateTaskData where
  config_id : Option String
  target_id : Option String
  escalator_id : Option String
  schedule_id : Option String
  slave_id : Option String
deriving DecidableEq, Repr

/-- The backend results the CREATE_TASK close consumes, in the order the
handler asks for them: task_uuid, task_description (non-null exactly when an
rcfile was supplied), the escalator/schedule/config/target/slave lookups,
task_name, and the rcfile-import and rcfile-generation steps. -/
structure CreateTaskBackend where
  task_uuid_fails : Bool
  description : Bool
  find_escalator : FindOutcome
  find_schedule : FindOutcome
  name_present : Bool
  create_config_rc_fails : Bool
  rc_has_targets : Bool
  create_target_fails : Bool
  find_config : FindOutcome
  find_target : FindOutcome
  find_slave : FindOutcome
  make_task_rcfile_fails : Bool
  tsk_uuid : String
deriving DecidableEq, Repr

/-- Closing CREATE_TASK (lines 11248-11550).  Every failure branch calls
request_delete_task on the half-created task (a backend side effect not
tracked here), answers its response, resets the staging and sets
CLIENT_AUTHENTIC.  The id lookups behave unevenly: a missing escalator or
schedule answers the Syntax (400) errors "CREATE_TASK escalator must exist"
and "CREATE_TASK schedule must exist" (lines 11316-11327, 11346-11357),
while a missing config or target answers the 404 find error naming its type
and id, and a missing slave answers the 404 find error with the type
"target" and the slave's id (lines 11502-11518). -/
def omp_end_create_task (writeOk : Bool) (d : CreateTaskData)
    (bk : CreateTaskBackend) : TaskCmdOutcome :=
  let fail : List String → TaskCmdOutcome := fun rs =>
    if writeOk then ⟨rs, ClientState.CLIENT_AUTHENTIC, true, false, none⟩
    else sendFailedOutcome ClientState.CLIENT_CREATE_TASK
  if bk.task_uuid_fails then fail [XML_INTERNAL_ERROR "create_task"]
  else if (bk.description ∧ (d.config_id.isSome ∨ d.target_id.isSome))
      ∨ (¬bk.description ∧ (d.config_id.isNone ∨ d.target_id.isNone)) then
    fail [XML_ERROR_SYNTAX "create_task"
        "CREATE_TASK requires either an rcfile or both a config and a target"]
  else if d.escalator_id.isSome ∧ bk.find_escalator = FindOutcome.findError then
    fail [XML_INTERNAL_ERROR "create_task"]
  else if d.escalator_id.isSome ∧ bk.find_escalator = FindOutcome.notFound then
    fail [XML_ERROR_SYNTAX "create_task" "CREATE_TASK escalator must exist"]
  else if d.schedule_id.isSome ∧ bk.find_schedule = FindOutcome.findError then
    fail [XML_INTERNAL_ERROR "create_task"]
  else if d.schedule_id.isSome ∧ bk.find_schedule = FindOutcome.notFound then
    fail [XML_ERROR_SYNTAX "create_task" "CREATE_TASK schedule must exist"]
  else if ¬bk.name_present then
    fail [XML_ERROR_SYNTAX "create_task" "CREATE_TASK requires a name attribute"]
  else if bk.description then
    if bk.create_config_rc_fails then fail [XML_INTERNAL_ERROR "create_task"]
    else if ¬bk.rc_has_targets then
      fail [XML_ERROR_SYNTAX "create_task" "CREATE_TASK rcfile must have targets"]
    else if bk.create_target_fails then fail [XML_INTERNAL_ERROR "create_task"]
    else fail [XML_OK_CREATED_ID "create_task" bk.tsk_uuid]
  else if bk.find_config = FindOutcome.findError then
    fail [XML_INTERNAL_ERROR "create_task"]
  else if bk.find_config = FindOutcome.notFound then
    fail [send_find_error_msg "create_task" "config" (d.config_id.getD "")]
  else if bk.find_target = FindOutcome.findError then
    fail [XML_INTERNAL_ERROR "create_task"]
  else if bk.find_target = FindOutcome.notFound then
    fail [send_find_error_msg "create_task" "target" (d.target_id.getD "")]
  else if d.slave_id.isSome ∧ bk.find_slave = FindOutcome.findError then
    fail [XML_INTERNAL_ERROR "create_task"]
  else if d.slave_id.isSome ∧ bk.find_slave = FindOutcome.notFound then
    fail [send_find_error_msg "create_task" "target" (d.slave_id.getD "")]
  else if bk.make_task_rcfile_fails then
    fail [XML_ERROR_SYNTAX "create_task" "Failed to generate task rcfile"]
  else fail [XML_OK_CREATED_ID "create_task" bk.tsk_uuid]

/-! ## Claims -/

/-- C1 counterexample: with credentials the backend accepts but a failing
load of the persisted tasks, closing AUTHENTICATE answers the internal
error and returns to Top — not the claimed 200/OK and Authentic. -/
theorem C1_counterexample :
    omp_end_authenticate true AuthResult.ok true =
      ⟨[XML_INTERNAL_ERROR "authenticate"], ClientState.CLIENT_TOP, true,
        some "Manager failed to load tasks."⟩
    ∧ (omp_end_authenticate true AuthResult.ok true).responses ≠ [XML_OK "authenticate"]
    ∧ (omp_end_authenticate true AuthResult.ok true).newState ≠
        ClientState.CLIENT_AUTHENTIC := by
  refine ⟨rfl, ?_, by decide⟩
  decide

/-- C1 (amended): closing AUTHENTICATE with credentials the backend accepts,
when the subsequent load of persisted tasks succeeds, sends the
authenticate_response with status 200 and text OK and moves to Authentic;
when that load fails it sends the internal-error (500) response and returns
to Top; closing with rejected credentials sends status 400 with text
"Authentication failed", frees the accumulated credentials, and returns the
state machine to Top. -/
theorem C1_authenticate_close :
    omp_end_authenticate true AuthResult.ok false =
      ⟨["<authenticate_response status=\"200\" status_text=\"OK\"/>"],
        ClientState.CLIENT_AUTHENTIC, false, none⟩
    ∧ omp_end_authenticate true AuthResult.ok true =
      ⟨["<authenticate_response status=\"500\" status_text=\"Internal error\"/>"],
        ClientState.CLIENT_TOP, true, some "Manager failed to load tasks."⟩
    ∧ ∀ loadTasksFails : Bool,
        omp_end_authenticate true AuthResult.failed loadTasksFails =
          ⟨["<authenticate_response status=\"400\" status_text=\"Authentication failed\"/>"],
            ClientState.CLIENT_TOP, true, none⟩ := by
  refine ⟨rfl, rfl, fun lf => rfl⟩

/-- C10: closing GET_VERSION always moves to Authentic, even when the
command was opened from the pre-authentication Top state: the source's
`if (client_state)` compares the state's enum value against 0, and both
CLIENT_GET_VERSION and CLIENT_GET_VERSION_AUTHENTIC are nonzero, so the
CLIENT_TOP branch is dead and Authentic is reachable with a single pre-auth
GET_VERSION command. -/
theorem C10_get_version_reaches_authentic :
    omp_xml_handle_start_element true ClientState.CLIENT_TOP "get_version" =
      ⟨[], ClientState.CLIENT_GET_VERSION, none⟩
    ∧ omp_end_get_version true ClientState.CLIENT_GET_VERSION =
      ⟨[get_version_response], ClientState.CLIENT_AUTHENTIC, none⟩
    ∧ omp_end_get_version true ClientState.CLIENT_GET_VERSION_AUTHENTIC =
      ⟨[get_version_response], ClientState.CLIENT_AUTHENTIC, none⟩ := by
  refine ⟨by decide, rfl, rfl⟩


/-- C2 counterexample: the find pattern is not uniform over id-referencing
commands: CREATE_TASK given a well-formed escalator_id that matches no
escalator answers the Syntax (400) error "CREATE_TASK escalator must
exist" (lines 11316-11327), not the claimed NotFound (404) find error
naming the type and the id. -/
theorem C2_counterexample :
    (omp_end_create_task true ⟨some "c1", some "t1", some "e1", none, none⟩
        ⟨false, false, FindOutcome.notFound, FindOutcome.found, true, false,
          true, false, FindOutcome.found, FindOutcome.found, FindOutcome.found,
          false, "u1"⟩).responses =
      ["<create_task_response status=\"400\" status_text=\"CREATE_TASK escalator must exist\"/>"]
    ∧ (omp_end_create_task true ⟨some "c1", some "t1", some "e1", none, none⟩
        ⟨false, false, FindOutcome.notFound, FindOutcome.found, true, false,
          true, false, FindOutcome.found, FindOutcome.found, FindOutcome.found,
          false, "u1"⟩).responses ≠
      [send_find_error_msg "create_task" "escalator" "e1"]
    ∧ STATUS_ERROR_SYNTAX ≠ STATUS_ERROR_MISSING := by
  refine ⟨rfl, by decide, by decide⟩

/-- C2 (amended): for the id-referencing task commands GET_TASKS,
DELETE_TASK, START_TASK and STOP_TASK with a staged task_id, a backend
lookup failure yields the Internal (500) response and an id that matches no
task yields the NotFound (404) response whose status_text is "Failed to
find task '<id>'" with the id reproduced verbatim; CREATE_TASK follows the
three-way pattern only for its config_id and target_id — a non-existent
escalator_id or schedule_id is answered with the Syntax (400) errors
"CREATE_TASK escalator must exist" and "CREATE_TASK schedule must exist",
and a non-existent slave_id with a find error whose type reads "target"
(lines 11502-11518) — while every CREATE_TASK lookup failure still yields
Internal (500). -/
theorem C2_find_pattern :
    ∀ (id rep : String) (ret : Int) (forked : Nat) (okBody : List String),
      (omp_end_get_tasks true (some id) FindOutcome.findError okBody).responses =
        [XML_INTERNAL_ERROR "get_tasks"]
      ∧ (omp_end_get_tasks true (some id) FindOutcome.notFound okBody).responses =
        [send_find_error_msg "get_tasks" "task" id]
      ∧ (omp_end_delete_task true (some id) FindOutcome.findError ret).responses =
        [XML_INTERNAL_ERROR "delete_task"]
      ∧ (omp_end_delete_task true (some id) FindOutcome.notFound ret).responses =
        [send_find_error_msg "delete_task" "task" id]
      ∧ (omp_end_start_task true (some id) FindOutcome.findError forked ret rep).responses =
        [XML_INTERNAL_ERROR "start_task"]
      ∧ (omp_end_start_task true (some id) FindOutcome.notFound forked ret rep).responses =
        [send_find_error_msg "start_task" "task" id]
      ∧ (omp_end_stop_task true (some id) FindOutcome.findError ret).responses =
        [XML_INTERNAL_ERROR "stop_task"]
      ∧ (omp_end_stop_task true (some id) FindOutcome.notFound ret).responses =
        [send_find_error_msg "stop_task" "task" id]
      ∧ XML_INTERNAL_ERROR "get_tasks" =
          "<get_tasks_response status=\"500\" status_text=\"Internal error\"/>"
      ∧ send_find_error_msg "get_tasks" "task" id =
          ("<get_tasks_response status=\"404\" status_text=\"Failed to find task '"
            ++ id) ++ "'\"/>"
      ∧ ∀ (cid tid eid sid uuid : String),
        (omp_end_create_task true ⟨some cid, some tid, some eid, none, none⟩
            ⟨false, false, FindOutcome.notFound, FindOutcome.found, true, false,
              true, false, FindOutcome.found, FindOutcome.found,
              FindOutcome.found, false, uuid⟩).responses =
          [XML_ERROR_SYNTAX "create_task" "CREATE_TASK escalator must exist"]
        ∧ (omp_end_create_task true ⟨some cid, some tid, some eid, none, none⟩
            ⟨false, false, FindOutcome.findError, FindOutcome.found, true, false,
              true, false, FindOutcome.found, FindOutcome.found,
              FindOutcome.found, false, uuid⟩).responses =
          [XML_INTERNAL_ERROR "create_task"]
        ∧ (omp_end_create_task true ⟨some cid, some tid, none, some sid, none⟩
            ⟨false, false, FindOutcome.found, FindOutcome.notFound, true, false,
              true, false, FindOutcome.found, FindOutcome.found,
              FindOutcome.found, false, uuid⟩).responses =
          [XML_ERROR_SYNTAX "create_task" "CREATE_TASK schedule must exist"]
        ∧ (omp_end_create_task true ⟨some cid, some tid, none, none, none⟩
            ⟨false, false, FindOutcome.found, FindOutcome.found, true, false,
              true, false, FindOutcome.notFound, FindOutcome.found,
              FindOutcome.found, false, uuid⟩).responses =
          [send_find_error_msg "create_task" "config" cid]
        ∧ (omp_end_create_task true ⟨some cid, some tid, none, none, none⟩
            ⟨false, false, FindOutcome.found, FindOutcome.found, true, false,
              true, false, FindOutcome.found, FindOutcome.notFound,
              FindOutcome.found, false, uuid⟩).responses =
          [send_find_error_msg "create_task" "target" tid]
        ∧ (omp_end_create_task true ⟨some cid, some tid, none, none, some sid⟩
            ⟨false, false, FindOutcome.found, FindOutcome.found, true, false,
              true, false, FindOutcome.found, FindOutcome.found,
              FindOutcome.notFound, false, uuid⟩).responses =
          [send_find_error_msg "create_task" "target" sid] := by
  intro id rep ret forked okBody
  exact ⟨rfl, rfl, rfl, rfl, rfl, rfl, rfl, rfl, rfl, rfl,
    fun cid tid eid sid uuid => ⟨rfl, rfl, rfl, rfl, rfl, rfl⟩⟩


/-- C3 counterexample: START_TASK on a task start_task reports active
(return 1) answers the Syntax (400) error "Task is active already" — a
response whose status is the syntax code "400", not the busy code "409"
the claim states. -/
theorem C3_counterexample :
    (omp_end_start_task true (some "t1") FindOutcome.found 0 1 "r1").responses =
      ["<start_task_response status=\"400\" status_text=\"Task is active already\"/>"]
    ∧ STATUS_ERROR_SYNTAX = "400"
    ∧ STATUS_ERROR_SYNTAX ≠ STATUS_ERROR_BUSY := by
  refine ⟨rfl, rfl, by decide⟩

/-- C3 (amended): START_TASK on a task that is already active answers the
Syntax (400) error "Task is active already" — distinct from the Internal
(500) response — and START_TASK the backend accepts (return 0) answers the
Requested (202) response carrying the new report id, setting the forked
flag to 1. -/
theorem C3_start_task_statuses (id rep : String) (forked : Nat)
    (hf : forked ≠ 2) :
    omp_end_start_task true (some id) FindOutcome.found forked 1 rep =
      ⟨[XML_ERROR_SYNTAX "start_task" "Task is active already"],
        ClientState.CLIENT_AUTHENTIC, true, false, none, forked, none⟩
    ∧ XML_ERROR_SYNTAX "start_task" "Task is active already" ≠
        XML_INTERNAL_ERROR "start_task"
    ∧ omp_end_start_task true (some id) FindOutcome.found forked 0 rep =
      ⟨[start_task_ok_response rep], ClientState.CLIENT_AUTHENTIC, true, false,
        none, 1, none⟩
    ∧ start_task_ok_response rep =
        ("<start_task_response status=\"202\" status_text=\"OK, request submitted\"><report_id>"
          ++ rep) ++ "</report_id></start_task_response>" := by
  refine ⟨?_, by decide, ?_, rfl⟩ <;>
    simp [omp_end_start_task, hf]

/-- C3 witness. -/
theorem C3_start_task_statuses_witness :
    omp_end_start_task true (some "t1") FindOutcome.found 0 1 "r1" =
      ⟨[XML_ERROR_SYNTAX "start_task" "Task is active already"],
        ClientState.CLIENT_AUTHENTIC, true, false, none, 0, none⟩ :=
  (C3_start_task_statuses "t1" "r1" 0 (by decide)).1

/-- C9 counterexample: a START_TASK processed while another task is already
running in this manager process (start_task return -6) is rejected with a
Syntax (400) error, not with a Busy (409) response: the status literal in
the emitted response is the syntax code. -/
theorem C9_counterexample :
    (omp_end_start_task true (some "t1") FindOutcome.found 0 (-6) "r1").responses =
      ["<start_task_response status=\"400\" status_text=\"There is already a task running in this process\"/>"]
    ∧ STATUS_ERROR_SYNTAX ≠ STATUS_ERROR_BUSY := by
  refine ⟨rfl, by decide⟩

/-- C9 (amended): a START_TASK or RESUME_STOPPED_TASK that the backend
rejects because a task is already running in this process (return -6) is
rejected — not queued: the forked flag is unchanged and no report id is
produced — with the distinguished Syntax (400) error "There is already a
task running in this process"; and when the handler itself observes
forked = 2 on a found task it aborts the process outright. -/
theorem C9_second_start_rejected (id rep : String) (forked : Nat) (ret : Int)
    (hf : forked ≠ 2) :
    omp_end_start_task true (some id) FindOutcome.found forked (-6) rep =
      ⟨[XML_ERROR_SYNTAX "start_task"
          "There is already a task running in this process"],
        ClientState.CLIENT_AUTHENTIC, true, false, none, forked, none⟩
    ∧ omp_end_resume_stopped_task true (some id) FindOutcome.found forked (-6) rep =
      ⟨[XML_ERROR_SYNTAX "resume_stopped_task"
          "There is already a task running in this process"],
        ClientState.CLIENT_AUTHENTIC, true, false, none, forked, none⟩
    ∧ (omp_end_start_task true (some id) FindOutcome.found 2 ret rep).aborted = true
    ∧ (omp_end_resume_stopped_task true (some id) FindOutcome.found 2 ret rep).aborted
        = true := by
  refine ⟨?_, ?_, rfl, rfl⟩ <;>
    simp [omp_end_start_task, omp_end_resume_stopped_task, hf]

/-- C9 witness. -/
theorem C9_second_start_rejected_witness :
    omp_end_start_task true (some "t1") FindOutcome.found 1 (-6) "r1" =
      ⟨[XML_ERROR_SYNTAX "start_task"
          "There is already a task running in this process"],
        ClientState.CLIENT_AUTHENTIC, true, false, none, 1, none⟩ :=
  (C9_second_start_rejected "t1" "r1" 1 0 (by decide)).1

/-- C4: DELETE_TASK on an existing, non-hidden task is two-phase: an idle
task (New, Stopped or Done) is removed at once and the response is OK (200);
any other status only flags the deletion — the task record survives with
status RequestedDelete — and the response is Requested (202); the two
responses are distinct. -/
theorem C4_delete_two_phase (id : String) (t : TaskRec) (hh : t.hidden = false) :
    ((t.status = TaskStatus.New ∨ t.status = TaskStatus.Stopped ∨
        t.status = TaskStatus.Done) →
      delete_task_on id t =
        (⟨[XML_OK "delete_task"], ClientState.CLIENT_AUTHENTIC, true, false, none⟩,
          none))
    ∧ (t.status ≠ TaskStatus.New → t.status ≠ TaskStatus.Stopped →
        t.status ≠ TaskStatus.Done →
      delete_task_on id t =
        (⟨[XML_OK_REQUESTED "delete_task"], ClientState.CLIENT_AUTHENTIC, true,
            false, none⟩,
          some ⟨TaskStatus.RequestedDelete, false⟩))
    ∧ XML_OK "delete_task" ≠ XML_OK_REQUESTED "delete_task" := by
  obtain ⟨st, hid⟩ := t
  subst hh
  refine ⟨?_, ?_, by decide⟩
  · rintro (rfl | rfl | rfl) <;> rfl
  · intro h1 h2 h3
    cases st <;> simp_all <;> rfl

/-- C4 witness. -/
theorem C4_delete_two_phase_witness :
    delete_task_on "t1" ⟨TaskStatus.Running, false⟩ =
      (⟨[XML_OK_REQUESTED "delete_task"], ClientState.CLIENT_AUTHENTIC, true,
          false, none⟩,
        some ⟨TaskStatus.RequestedDelete, false⟩) :=
  (C4_delete_two_phase "t1" ⟨TaskStatus.Running, false⟩ rfl).2.1
    (by decide) (by decide) (by decide)


/-- C6: for each modelled command-root close (DELETE_TASK, START_TASK,
RESUME_STOPPED_TASK, STOP_TASK, GET_TASKS), whenever the handler returns
normally — the client writes succeed and no branch calls abort() — the
command's staging record is reset and the state machine is set back to
CLIENT_AUTHENTIC, for every staged task_id, lookup outcome and backend
return, so no staged data survives into the next command. -/
theorem C6_reset_after_close (task_id : Option String) (find : FindOutcome)
    (ret : Int) (forked : Nat) (rep : String) (okBody : List String) :
    ((omp_end_delete_task true task_id find ret).aborted = false →
      (omp_end_delete_task true task_id find ret).staging_reset = true
      ∧ (omp_end_delete_task true task_id find ret).newState =
          ClientState.CLIENT_AUTHENTIC)
    ∧ ((omp_end_start_task true task_id find forked ret rep).aborted = false →
      (omp_end_start_task true task_id find forked ret rep).staging_reset = true
      ∧ (omp_end_start_task true task_id find forked ret rep).newState =
          ClientState.CLIENT_AUTHENTIC)
    ∧ ((omp_end_resume_stopped_task true task_id find forked ret rep).aborted = false →
      (omp_end_resume_stopped_task true task_id find forked ret rep).staging_reset = true
      ∧ (omp_end_resume_stopped_task true task_id find forked ret rep).newState =
          ClientState.CLIENT_AUTHENTIC)
    ∧ ((omp_end_stop_task true task_id find ret).aborted = false →
      (omp_end_stop_task true task_id find ret).staging_reset = true
      ∧ (omp_end_stop_task true task_id find ret).newState =
          ClientState.CLIENT_AUTHENTIC)
    ∧ ((omp_end_get_tasks true task_id find okBody).staging_reset = true
      ∧ (omp_end_get_tasks true task_id find okBody).newState =
          ClientState.CLIENT_AUTHENTIC) := by
  rcases task_id with _ | id <;> rcases find with _ | _ | _ <;>
    refine ⟨?_, ?_, ?_, ?_, ?_⟩ <;>
    simp only [omp_end_delete_task, omp_end_start_task,
      omp_end_resume_stopped_task, omp_end_stop_task, omp_end_get_tasks] <;>
    split_ifs <;> simp_all

/-- C6 witness. -/
theorem C6_reset_after_close_witness :
    (omp_end_delete_task true (some "t1") FindOutcome.found 1).staging_reset = true
    ∧ (omp_end_delete_task true (some "t1") FindOutcome.found 1).newState =
        ClientState.CLIENT_AUTHENTIC :=
  (C6_reset_after_close (some "t1") FindOutcome.found 1 0 "r1" []).1 rfl


/-- Bool form of the fallback discipline of the transition table: every
bogus-element fallback is CLIENT_AUTHENTIC, except in the two AUTHENTICATE
accumulation states, where it is CLIENT_TOP. -/
def fallbackOk (s : ClientState) : Bool :=
  match startTable s with
  | none => true
  | some e =>
    e.fallback == ClientState.CLIENT_AUTHENTIC ||
      (e.fallback == ClientState.CLIENT_TOP &&
        (s == ClientState.CLIENT_AUTHENTICATE ||
          s == ClientState.CLIENT_AUTHENTICATE_CREDENTIALS))

theorem fallbackOk_all : ∀ s : ClientState, fallbackOk s = true := by decide


/-- C5 counterexample: in the leaf text state
CLIENT_AUTHENTICATE_CREDENTIALS_USERNAME — a state with no case of its own
in the start-element switch — an unexpected element reaches the switch's
default branch: no syntax-error response is sent at all, the state does not
change (so the machine is in neither Authentic nor Top), and only the
programming-error parse error is set, against the claim that every state
answers exactly one Syntax error naming the element and falls back to
Authentic or Top. -/
theorem C5_counterexample :
    omp_xml_handle_start_element true
        ClientState.CLIENT_AUTHENTICATE_CREDENTIALS_USERNAME "FOO" =
      ⟨[], ClientState.CLIENT_AUTHENTICATE_CREDENTIALS_USERNAME,
        some "Manager programming error."⟩
    ∧ ClientState.CLIENT_AUTHENTICATE_CREDENTIALS_USERNAME ≠
        ClientState.CLIENT_AUTHENTIC
    ∧ ClientState.CLIENT_AUTHENTICATE_CREDENTIALS_USERNAME ≠
        ClientState.CLIENT_TOP := by
  refine ⟨by decide, by decide, by decide⟩

/-- C5 (amended): for every element state with its own transition table in
the start-element switch, opening an element whose name matches no table
entry sends exactly one Syntax (400) "Bogus element" error naming the
element for the owning command, moves the state machine to the table's
fallback — CLIENT_AUTHENTIC everywhere except the two AUTHENTICATE
accumulation states, which fall back to CLIENT_TOP — and sets a parse
error; a state with no case of its own instead reaches the default branch,
which sends nothing and only sets the programming-error parse error. -/
theorem C5_bogus_element (s : ClientState) (e : StartEntry) (name : String)
    (ht : startTable s = some e)
    (hm : lookupCase name e.accepts = none) :
    omp_xml_handle_start_element true s name =
      ⟨[send_element_error_msg e.cmd name], e.fallback, some "Error"⟩
    ∧ (e.fallback = ClientState.CLIENT_AUTHENTIC ∨
        (e.fallback = ClientState.CLIENT_TOP ∧
          (s = ClientState.CLIENT_AUTHENTICATE ∨
            s = ClientState.CLIENT_AUTHENTICATE_CREDENTIALS)))
    ∧ ∀ (s2 : ClientState) (name2 : String),
        startTable s2 = none →
        s2 ≠ ClientState.CLIENT_TOP → s2 ≠ ClientState.CLIENT_COMMANDS →
        s2 ≠ ClientState.CLIENT_AUTHENTIC →
        s2 ≠ ClientState.CLIENT_AUTHENTIC_COMMANDS →
        omp_xml_handle_start_element true s2 name2 =
          ⟨[], s2, some "Manager programming error."⟩ := by
  have hTop : s ≠ ClientState.CLIENT_TOP := by
    rintro rfl; exact Option.noConfusion (ht.symm.trans rfl)
  have hCom : s ≠ ClientState.CLIENT_COMMANDS := by
    rintro rfl; exact Option.noConfusion (ht.symm.trans rfl)
  have hAu : s ≠ ClientState.CLIENT_AUTHENTIC := by
    rintro rfl; exact Option.noConfusion (ht.symm.trans rfl)
  have hAuc : s ≠ ClientState.CLIENT_AUTHENTIC_COMMANDS := by
    rintro rfl; exact Option.noConfusion (ht.symm.trans rfl)
  refine ⟨?_, ?_, ?_⟩
  · simp only [omp_xml_handle_start_element, if_neg hTop, if_neg hCom,
      if_neg (not_or.mpr ⟨hAu, hAuc⟩), ht, tableStart, hm]
    simp
  · have hb := fallbackOk_all s
    unfold fallbackOk at hb
    rw [ht] at hb
    simp only [Bool.or_eq_true, Bool.and_eq_true, beq_iff_eq] at hb
    exact hb
  · intro s2 name2 h0 h1 h2 h3 h4
    simp only [omp_xml_handle_start_element, if_neg h1, if_neg h2,
      if_neg (not_or.mpr ⟨h3, h4⟩), h0]

/-- C5 witness. -/
theorem C5_bogus_element_witness :
    omp_xml_handle_start_element true ClientState.CLIENT_CREATE_SCHEDULE "FOO" =
      ⟨[send_element_error_msg "create_schedule" "FOO"],
        ClientState.CLIENT_AUTHENTIC, some "Error"⟩ :=
  (C5_bogus_element ClientState.CLIENT_CREATE_SCHEDULE
    ⟨[("COMMENT", ClientState.CLIENT_CREATE_SCHEDULE_COMMENT),
      ("DURATION", ClientState.CLIENT_CREATE_SCHEDULE_DURATION),
      ("FIRST_TIME", ClientState.CLIENT_CREATE_SCHEDULE_FIRST_TIME),
      ("NAME", ClientState.CLIENT_CREATE_SCHEDULE_NAME),
      ("PERIOD", ClientState.CLIENT_CREATE_SCHEDULE_PERIOD)],
      "create_schedule", ClientState.CLIENT_AUTHENTIC⟩
    "FOO" rfl (by decide)).1


/-- The write callback moves bytes from the queue to the written log and
invents, drops or reorders none. -/
theorem write_to_client_account (e : CbEvent) (b : ToClient) :
    ((write_to_client e b).2).written ++ ((write_to_client e b).2).pending =
      b.written ++ b.pending := by
  cases e with
  | cbError => rfl
  | accept k =>
    simp only [write_to_client]
    split
    · next hempty =>
      have hdrop : b.pending.drop (min k b.pending.length) = [] := by
        simpa [List.isEmpty_iff] using hempty
      have := List.take_append_drop (min k b.pending.length) b.pending
      rw [hdrop, List.append_nil] at this
      simp [this]
    · simp [List.append_assoc, List.take_append_drop]

/-- Accounting for one send_to_client call that returns without a write
error: afterwards, the bytes handed to the callback followed by the bytes
still queued are exactly the old ones followed by the whole message. -/
theorem send_to_client_account (cap : Nat) :
    ∀ (script : List CbEvent) (msg : List Nat) (b r : ToClient),
      send_to_client cap script msg b = some (false, r) →
      r.written ++ r.pending = b.written ++ b.pending ++ msg := by
  intro script
  induction script with
  | nil =>
    intro msg b r h
    rw [send_to_client] at h
    split_ifs at h
    obtain rfl : bufAppend msg b = r := by injection h with h2; injection h2
    simp [bufAppend, List.append_assoc]
  | cons e rest ih =>
    intro msg b r h
    have hacc := write_to_client_account e b
    rw [send_to_client] at h
    split_ifs at h with hc herr hlen
    · simp at h
    · obtain rfl : bufAppend msg (write_to_client e b).2 = r := by
        injection h with h2; injection h2
      simp [bufAppend, ← List.append_assoc, hacc]
    · have := ih _ _ _ h
      rw [this]
      simp only [bufAppend, List.append_assoc, List.take_append_drop]
      simp [← List.append_assoc, hacc]
    · obtain rfl : bufAppend msg b = r := by injection h with h2; injection h2
      simp [bufAppend, List.append_assoc]


/-- C7: across any sequence of send_to_client calls that all succeed —
however much the combined size exceeds the buffer capacity, and so however
often the drain callback runs and however a long message is queued in
chunks — no byte is lost, duplicated or reordered: the bytes handed to the
write callback followed by the bytes still queued equal the initial buffer
contents followed by the concatenation of all messages sent, in order. -/
theorem C7_no_byte_lost (cap : Nat) (calls : List (List CbEvent × List Nat))
    (b r : ToClient) (h : send_all cap calls b = some r) :
    r.written ++ r.pending =
      b.written ++ b.pending ++ (calls.map Prod.snd).flatten := by
  induction calls generalizing b with
  | nil =>
    rw [send_all] at h
    obtain rfl : b = r := by injection h
    simp
  | cons c rest ih =>
    obtain ⟨script, msg⟩ := c
    rw [send_all] at h
    revert h
    split
    · next b2 hcall =>
      intro h
      have h1 := send_to_client_account cap script msg b b2 hcall
      have h2 := ih b2 h
      rw [h2, h1]
      simp [List.append_assoc]
    all_goals intro h; cases h

/-- C7 witness: two sends totalling 7 bytes through a 3-byte buffer. -/
theorem C7_no_byte_lost_witness :
    ToClient.written ⟨0, [6, 7], [1, 2, 3, 4, 5]⟩ ++
        ToClient.pending ⟨0, [6, 7], [1, 2, 3, 4, 5]⟩ =
      ToClient.written ⟨0, [], []⟩ ++ ToClient.pending ⟨0, [], []⟩ ++
        (([([CbEvent.accept 3, CbEvent.accept 3], [1, 2, 3, 4, 5]),
            ([CbEvent.accept 3], [6, 7])].map Prod.snd).flatten) :=
  C7_no_byte_lost 3
    [([CbEvent.accept 3, CbEvent.accept 3], [1, 2, 3, 4, 5]),
      ([CbEvent.accept 3], [6, 7])]
    ⟨0, [], []⟩ ⟨0, [6, 7], [1, 2, 3, 4, 5]⟩ (by decide)

/-- A callback invocation that is offered at least the whole queue drains it
completely and resets the cursors. -/
theorem write_accept_full (b : ToClient) (k : Nat) (hk : b.pending.length ≤ k) :
    write_to_client (CbEvent.accept k) b = (0, ⟨0, [], b.written ++ b.pending⟩) := by
  simp [write_to_client, Nat.min_eq_right hk, List.drop_length,
    List.take_length, List.drop_eq_nil_of_le hk, List.take_of_length_le hk]

/-- When every callback invocation drains the whole buffer, the drain loop
finishes within msg.length + 1 iterations: each iteration frees the whole
capacity and queues at least one more byte of the message. -/
theorem send_full_drain_terminates (cap : Nat) (hcap : 1 ≤ cap) :
    ∀ (n : Nat) (msg : List Nat) (b : ToClient),
      to_client_end b ≤ cap → msg.length < n →
      send_to_client cap (List.replicate n (CbEvent.accept cap)) msg b ≠ none := by
  intro n
  induction n with
  | zero => intro msg b _ hlt; omega
  | succ m ih =>
    intro msg b hend hlt
    have hpen : b.pending.length ≤ cap := by
      have : b.pending.length ≤ to_client_end b := by
        simp [to_client_end]
      omega
    rw [List.replicate_succ, send_to_client]
    split_ifs with hc herr hbig
    · simp
    · simp
    · rw [write_accept_full b cap hpen]
      rw [write_accept_full b cap hpen] at hbig
      simp only [to_client_end, List.length_nil, Nat.add_zero, Nat.sub_zero] at hbig ⊢
      apply ih
      · simp [bufAppend, to_client_end]
      · simp only [List.length_drop]
        omega
    · simp

/-- C8 counterexample: a write callback that forever accepts nothing (the
"wrote as much as the client was willing to accept" outcome with no
progress) keeps send_to_client looping: for every script length the drain
loop is still running, so it does not terminate for every sequence of
callback outcomes. -/
theorem C8_counterexample :
    send_to_client_diverges 2 (CbEvent.accept 0) [1, 2, 3] ⟨0, [], []⟩ := by
  have helper : ∀ m : Nat,
      send_to_client 2 (List.replicate m (CbEvent.accept 0)) [3] ⟨0, [1, 2], []⟩ =
        none := by
    intro m
    induction m with
    | zero => rfl
    | succ k ih => exact ih
  intro n
  cases n with
  | zero => rfl
  | succ m => exact helper m


/-- C8 (amended): send_to_client never blocks waiting on the network — a
fatal write-callback error makes it return failure at once, with the buffer
as it was, aborting only the in-flight response — and it terminates whenever
the callback makes progress: if every invocation drains the queue, the
message is chunked in and the loop ends within msg.length + 1 invocations.
Termination does not, however, hold for every outcome sequence: a callback
that forever accepts nothing keeps the loop spinning (see the
counterexample), so the claim holds only for progressing callbacks. -/
theorem C8_never_blocks (cap : Nat) (msg : List Nat) (b : ToClient)
    (rest : List CbEvent) (hcap : 1 ≤ cap) (hend : to_client_end b ≤ cap) :
    (cap - to_client_end b < msg.length →
      send_to_client cap (CbEvent.cbError :: rest) msg b = some (true, b))
    ∧ ∀ n : Nat, msg.length < n →
        send_to_client cap (List.replicate n (CbEvent.accept cap)) msg b ≠ none := by
  constructor
  · intro hc
    rw [send_to_client]
    simp [hc, write_to_client]
  · intro n hn
    exact send_full_drain_terminates cap hcap n msg b hend hn

/-- C8 witness: a 3-byte message through a 2-byte buffer. -/
theorem C8_never_blocks_witness :
    send_to_client 2 [CbEvent.cbError] [7, 8, 9] ⟨0, [], []⟩ =
      some (true, ⟨0, [], []⟩)
    ∧ send_to_client 2 (List.replicate 4 (CbEvent.accept 2)) [7, 8, 9]
        ⟨0, [], []⟩ ≠ none :=
  ⟨(C8_never_blocks 2 [7, 8, 9] ⟨0, [], []⟩ [] (by decide) (by decide)).1
      (by decide),
    (C8_never_blocks 2 [7, 8, 9] ⟨0, [], []⟩ [] (by decide) (by decide)).2 4
      (by decide)⟩

end Gvmd
